import Mathlib

/-!
# Azure Monitor scaler: configuration parsing

A shallow embedding of `pkg/scalers/azure_monitor_scaler.go`.

* Go strings are Lean strings; a Go `map[string]string` is a lookup function
  `String → Option String` (the scaler only ever reads its maps).
* A Go `error` is identified with its message, so `(T, error)` results are
  `Except String T`; a `nil` descriptor returned next to an error is the absence of a value
  in `Except.error`.
* `strconv.ParseInt` and `strings.Split` (Go standard library) are embedded from their Go
  definitions, specialised to the arguments the scaler passes (base 10, 64 bits, a
  one-character separator).
* Functions the scaler calls but that are defined in other files (`getParameterFromConfig`,
  `azure.ParseEnvironmentProperty`, `azure.ParseActiveDirectoryEndpoint`, and the text of
  `strconv.Quote`) are collected in the structure `Externals` and passed as a parameter.
-/

namespace AzureMonitor

/-! ## Go maps and strings -/

/-- A Go `map[string]string`, seen through its lookups. -/
abbrev StringMap := String → Option String

namespace StringMap

/-- The two-valued lookup `val, ok := m[k]`: `val` is the zero value `""` when `k` is absent. -/
def lookup (m : StringMap) (k : String) : String × Bool :=
  ((m k).getD "", (m k).isSome)

/-- The one-valued lookup `m[k]`. -/
def index (m : StringMap) (k : String) : String :=
  (m k).getD ""

/-- The map `m` after `m[k] = v`. -/
def set (m : StringMap) (k v : String) : StringMap :=
  fun k' => if k' = k then some v else m k'

/-- The map literal `map[string]string{k₁: v₁, …}`. -/
def ofList (kvs : List (String × String)) : StringMap :=
  fun k => kvs.lookup k

end StringMap

/-- `strings.Split(s, sep)` for a one-character separator, on the characters of `s`:
the pieces between consecutive separators, in order. -/
def splitChars (sep : Char) : List Char → List (List Char)
  | [] => [[]]
  | c :: cs =>
    if c = sep then [] :: splitChars sep cs
    else
      match splitChars sep cs with
      | [] => [[c]]
      | seg :: rest => (c :: seg) :: rest

/-- `strings.Split(s, sep)` for a one-character separator `sep`. -/
def Split (s : String) (sep : Char) : List String :=
  (splitChars sep s.data).map String.mk

/-! ## `strconv.ParseInt(s, 10, 64)` -/

/-- The two sentinel errors of `strconv` (`ErrSyntax`, `ErrRange`). -/
inductive NumErrKind where
  | invalid
  | range
  deriving DecidableEq, Repr

/-- The message of a sentinel error. -/
def NumErrKind.text : NumErrKind → String
  | .invalid => "invalid syntax"
  | .range => "value out of range"

/-- `strconv.NumError`. -/
structure NumError where
  Func : String
  Num : String
  Err : NumErrKind
  deriving DecidableEq, Repr

/-- `maxUint64/10 + 1`: the smallest `n` such that `n * 10` overflows 64 bits. -/
def uintCutoff : Nat := (2 ^ 64 - 1) / 10 + 1

/-- `uint64(1)<<64 - 1`. -/
def maxVal : Nat := 2 ^ 64 - 1

/-- `lower(c)` of `strconv`: `c | ('x' - 'X')`. -/
def lower (c : Nat) : Nat := c ||| 32

/-- The `switch` at the head of the digit loop of `strconv.ParseUint` with `base0 = false`:
the digit value of a byte, or `none` for the `default` branch (syntax error). -/
def digitVal (c : Char) : Option Nat :=
  if 48 ≤ c.toNat ∧ c.toNat ≤ 57 then some (c.toNat - 48)
  else if 97 ≤ lower c.toNat ∧ lower c.toNat ≤ 122 then some (lower c.toNat - 97 + 10)
  else none

/-- The digit loop of `strconv.ParseUint(s, 10, 64)`, from accumulator `n`. The loop of the
Go source ranges over the bytes of `s`; a character outside ASCII is encoded by bytes
`≥ 0x80`, none of which is a digit, or a letter after `lower`, so it ends the loop with a
syntax error exactly as its code point does here. Arithmetic is that of `uint64`. -/
def parseUintLoop : List Char → Nat → Nat × Option NumErrKind
  | [], n => (n, none)
  | c :: cs, n =>
    match digitVal c with
    | none => (0, some .invalid)
    | some d =>
      if d ≥ 10 then (0, some .invalid)
      else if n ≥ uintCutoff then (maxVal, some .range)
      else
        let n10 := (n * 10) % 2 ^ 64
        let n1 := (n10 + d) % 2 ^ 64
        if n1 < n10 ∨ n1 > maxVal then (maxVal, some .range)
        else parseUintLoop cs n1

/-- `strconv.ParseUint(s, 10, 64)`: the value and the kind of error, if any. -/
def ParseUint (s : String) : Nat × Option NumErrKind :=
  if s = "" then (0, some .invalid)
  else parseUintLoop s.data 0

/-- `strconv.ParseInt(s, 10, 64)`. On error the Go function also returns a number, which the
scaler never looks at. -/
def ParseInt (s : String) : Except NumError Int :=
  match s.data with
  | [] => .error ⟨"ParseInt", s, .invalid⟩
  | c :: cs =>
    let neg := c = '-'
    let s1 : String := if c = '+' ∨ c = '-' then String.mk cs else s
    match ParseUint s1 with
    | (_, some .invalid) => .error ⟨"ParseInt", s, .invalid⟩
    | (un, _) =>
      let cutoff : Nat := 2 ^ 63
      if ¬ neg ∧ un ≥ cutoff then .error ⟨"ParseInt", s, .range⟩
      else if neg ∧ un > cutoff then .error ⟨"ParseInt", s, .range⟩
      else .ok (if neg then - (un : Int) else (un : Int))

/-! ## Data model -/

/-- Modelled from the spec: `kedav1alpha1.PodIdentityProviderNone` is declared outside the
given sources; §4.2 names the selector of the explicit mode, "none". -/
def PodIdentityProviderNone : String := "none"

/-- Modelled from the spec: `kedav1alpha1.PodIdentityProviderAzure` is declared outside the
given sources; it is the first of the two ambient-identity variants of §4.2, the Azure
pod-identity provider `azure`. -/
def PodIdentityProviderAzure : String := "azure"

/-- Modelled from the spec: `kedav1alpha1.PodIdentityProviderAzureWorkload` is declared
outside the given sources; it is the second of the two ambient-identity variants of §4.2,
the Azure workload-identity provider `azure-workload`. -/
def PodIdentityProviderAzureWorkload : String := "azure-workload"

/-- `ScalerConfig`: the fields the Azure Monitor scaler reads. -/
structure ScalerConfig where
  TriggerMetadata : StringMap
  ResolvedEnv : StringMap
  AuthParams : StringMap
  PodIdentity : String
  ScalerIndex : Int

/-- `azure.MonitorInfo`: the fields written by the parser. -/
structure MonitorInfo where
  ResourceURI : String := ""
  TenantID : String := ""
  SubscriptionID : String := ""
  ResourceGroupName : String := ""
  Name : String := ""
  Namespace : String := ""
  Filter : String := ""
  AggregationInterval : String := ""
  AggregationType : String := ""
  ClientID : String := ""
  ClientPassword : String := ""
  AzureResourceManagerEndpoint : String := ""
  ActiveDirectoryEndpoint : String := ""
  deriving DecidableEq, Repr

/-- `azureMonitorMetadata`. -/
structure azureMonitorMetadata where
  azureMonitorInfo : MonitorInfo := {}
  targetValue : Int := 0
  scalerIndex : Int := 0
  deriving DecidableEq, Repr

/-- `az.Environment`: the two endpoints the scaler asks for. -/
structure Environment where
  ResourceManagerEndpoint : String
  ActiveDirectoryEndpoint : String

/-- Functions called by the scaler and defined outside `azure_monitor_scaler.go`. -/
structure Externals where
  /-- `strconv.Quote`, used in the text of a `strconv.NumError`. -/
  Quote : String → String
  /-- `getParameterFromConfig(config, parameter, useAuthentication)`. -/
  getParameterFromConfig : ScalerConfig → String → Bool → Except String String
  /-- `azure.ParseEnvironmentProperty(metadata, propertyName, envPropertyProvider)`. -/
  ParseEnvironmentProperty :
    StringMap → String → (Environment → Except String String) → Except String String
  /-- `azure.ParseActiveDirectoryEndpoint(metadata)`. -/
  ParseActiveDirectoryEndpoint : StringMap → Except String String

/-! ## Collaborators modelled outside the source file -/

/-- ASCII lower-casing of a string, character by character. -/
def asciiLower (s : String) : String :=
  String.mk (s.data.map fun c => if 65 ≤ c.toNat ∧ c.toNat ≤ 90 then Char.ofNat (c.toNat + 32) else c)

/-- Modelled from the spec: `azure.PrivateCloud`, the reserved name of §4.3 and §6 for a
private cloud, compared without regard to case. -/
def PrivateCloud : String := "Private"

/-- Modelled from the spec: the primary public cloud of §4.3 (`az.PublicCloud`), with the
endpoint pair of the Azure public cloud. -/
def PublicCloud : Environment :=
  { ResourceManagerEndpoint := "https://management.azure.com/"
    ActiveDirectoryEndpoint := "https://login.microsoftonline.com/" }

/-- Modelled from the spec: `az.EnvironmentFromName`, the "small fixed set of known
public/sovereign clouds, each with a built-in endpoint pair" of §4.3, looked up without regard
to case. The set is not listed in the spec; the public cloud and the cloud named in the test
table (`azureChinaCloud`) are entered here. -/
def EnvironmentFromName (name : String) : Option Environment :=
  if asciiLower name = "azurepubliccloud" ∨ asciiLower name = "azurecloud" then some PublicCloud
  else if asciiLower name = "azurechinacloud" then
    some { ResourceManagerEndpoint := "https://management.chinacloudapi.cn/"
           ActiveDirectoryEndpoint := "https://login.chinacloudapi.cn/" }
  else none

/-- Modelled from the spec: `azure.ParseEnvironmentProperty` is defined in package
`pkg/scalers/azure`, outside the given sources. §4.3: the key `cloud` selects a known cloud
(case-insensitive); the reserved private cloud requires the property to be given explicitly in
the configuration and uses it verbatim; without the key `cloud` the public cloud is used; an
unknown name is an error. -/
def ParseEnvironmentProperty (metadata : StringMap) (propertyName : String)
    (envPropertyProvider : Environment → Except String String) : Except String String :=
  let (val, ok) := metadata.lookup "cloud"
  if ok && val != "" then
    if asciiLower val = asciiLower PrivateCloud then
      let (propertyValue, ok) := metadata.lookup propertyName
      if ok && propertyValue != "" then .ok propertyValue
      else .error (propertyName ++ " must be provided for " ++ PrivateCloud ++ " cloud type")
    else
      match EnvironmentFromName val with
      | none => .error ("invalid cloud environment " ++ val)
      | some env => envPropertyProvider env
  else envPropertyProvider PublicCloud

/-- Modelled from the spec: `azure.ParseActiveDirectoryEndpoint` is defined in package
`pkg/scalers/azure`, outside the given sources. §4.3, for the identity endpoint, whose
override key is `activeDirectoryEndpoint` (§6). -/
def ParseActiveDirectoryEndpoint (metadata : StringMap) : Except String String :=
  ParseEnvironmentProperty metadata "activeDirectoryEndpoint"
    (fun env => .ok env.ActiveDirectoryEndpoint)

/-- Modelled from the spec: `getParameterFromConfig` is defined in another file of package
`scalers`, outside the given sources. §4.2 takes the client id from
`triggerMetadata["activeDirectoryClientId"]` and treats a missing or empty value as an error;
the test table (row "connection from authParams") also accepts a client id given in
`authParams`, which is consulted first when `useAuthentication` is set. -/
def getParameterFromConfig (config : ScalerConfig) (parameter : String)
    (useAuthentication : Bool) : Except String String :=
  let (val, ok) := config.AuthParams.lookup parameter
  if useAuthentication && ok && val != "" then .ok val
  else
    let (val, ok) := config.TriggerMetadata.lookup parameter
    if ok && val != "" then .ok val
    else .error ("key not found: " ++ parameter)

/-- Modelled from the spec: `strconv.Quote` on text made of printable characters other than
the double quote and the backslash, which it encloses in double quotes unchanged. -/
def plainQuote (s : String) : String :=
  "\"" ++ s ++ "\""

/-- The collaborators as modelled above. -/
def modelExternals : Externals :=
  { Quote := plainQuote
    getParameterFromConfig := getParameterFromConfig
    ParseEnvironmentProperty := ParseEnvironmentProperty
    ParseActiveDirectoryEndpoint := ParseActiveDirectoryEndpoint }

/-- `(*NumError).Error()`. -/
def NumError.Error (ext : Externals) (e : NumError) : String :=
  "strconv." ++ e.Func ++ ": parsing " ++ ext.Quote e.Num ++ ": " ++ e.Err.text

def azureMonitorMetricName : String := "metricName"

def targetValueName : String := "targetValue"

/-! ## The parser -/

/-- `parseAzurePodIdentityParams` gets the activeDirectory clientID and password. -/
def parseAzurePodIdentityParams (ext : Externals) (config : ScalerConfig) :
    Except String (String × String) :=
  if config.PodIdentity = "" ∨ config.PodIdentity = PodIdentityProviderNone then
    match ext.getParameterFromConfig config "activeDirectoryClientId" true with
    | .error _ => .error "no activeDirectoryClientId given"
    | .ok clientID =>
      if clientID = "" then .error "no activeDirectoryClientId given"
      else
        let clientPassword :=
          if config.AuthParams.index "activeDirectoryClientPassword" ≠ "" then
            config.AuthParams.index "activeDirectoryClientPassword"
          else if config.TriggerMetadata.index "activeDirectoryClientPasswordFromEnv" ≠ "" then
            config.ResolvedEnv.index
              (config.TriggerMetadata.index "activeDirectoryClientPasswordFromEnv")
          else ""
        if clientPassword.length = 0 then .error "no activeDirectoryClientPassword given"
        else .ok (clientID, clientPassword)
  else if config.PodIdentity = PodIdentityProviderAzure
      ∨ config.PodIdentity = PodIdentityProviderAzureWorkload then
    .ok ("", "")
  else
    .error ("azure Monitor doesn't support pod identity " ++ config.PodIdentity)

/-- `parseAzureMonitorMetadata`: the blocks of the source, in the order of the source. Each
block either updates the descriptor under construction (`meta` in the source, here the pair of
`info` and `targetValue`) or leaves the function with `return nil, err`, which is a `throw`. -/
def parseAzureMonitorMetadata (ext : Externals) (config : ScalerConfig) :
    Except String azureMonitorMetadata := do
  let info : MonitorInfo := {}

  let (val, ok) := config.TriggerMetadata.lookup targetValueName
  let targetValue ←
    if ok && val != "" then
      match ParseInt val with
      | .error err =>
        throw ("error parsing azure monitor metadata " ++ targetValueName ++ ": " ++ err.Error ext)
      | .ok targetValue => pure targetValue
    else
      throw "no targetValue given"

  let (val, ok) := config.TriggerMetadata.lookup "resourceURI"
  let info ←
    if ok && val != "" then
      let resourceURI := Split val '/'
      if resourceURI.length != 3 then
        throw "resourceURI not in the correct format. Should be namespace/resource_type/resource_name"
      else
        pure { info with ResourceURI := val }
    else
      throw "no resourceURI given"

  let (val, ok) := config.TriggerMetadata.lookup "resourceGroupName"
  let info ←
    if ok && val != "" then
      pure { info with ResourceGroupName := val }
    else
      throw "no resourceGroupName given"

  let (val, ok) := config.TriggerMetadata.lookup azureMonitorMetricName
  let info ←
    if ok && val != "" then
      pure { info with Name := val }
    else
      throw "no metricName given"

  let (val, ok) := config.TriggerMetadata.lookup "metricAggregationType"
  let info ←
    if ok && val != "" then
      pure { info with AggregationType := val }
    else
      throw "no metricAggregationType given"

  let (val, ok) := config.TriggerMetadata.lookup "metricFilter"
  let info := if ok && val != "" then { info with Filter := val } else info

  let (val, ok) := config.TriggerMetadata.lookup "metricAggregationInterval"
  let info ←
    if ok && val != "" then
      let aggregationInterval := Split val ':'
      if aggregationInterval.length != 3 then
        throw "metricAggregationInterval not in the correct format. Should be hh:mm:ss"
      else
        pure { info with AggregationInterval := val }
    else
      pure info

  -- Required authentication parameters below

  let (val, ok) := config.TriggerMetadata.lookup "subscriptionId"
  let info ←
    if ok && val != "" then
      pure { info with SubscriptionID := val }
    else
      throw "no subscriptionId given"

  let (val, ok) := config.TriggerMetadata.lookup "tenantId"
  let info ←
    if ok && val != "" then
      pure { info with TenantID := val }
    else
      throw "no tenantId given"

  let (val, ok) := config.TriggerMetadata.lookup "metricNamespace"
  let info := if ok then { info with Namespace := val } else info

  let (clientID, clientPassword) ← parseAzurePodIdentityParams ext config
  let info := { info with ClientID := clientID, ClientPassword := clientPassword }

  let scalerIndex := config.ScalerIndex

  let azureResourceManagerEndpointProvider : Environment → Except String String :=
    fun env => .ok env.ResourceManagerEndpoint
  let azureResourceManagerEndpoint ←
    ext.ParseEnvironmentProperty config.TriggerMetadata "azureResourceManagerEndpoint"
      azureResourceManagerEndpointProvider
  let info := { info with AzureResourceManagerEndpoint := azureResourceManagerEndpoint }

  let activeDirectoryEndpoint ← ext.ParseActiveDirectoryEndpoint config.TriggerMetadata
  let info := { info with ActiveDirectoryEndpoint := activeDirectoryEndpoint }

  return { azureMonitorInfo := info, targetValue := targetValue, scalerIndex := scalerIndex }

/-! ## Notions used to state the properties -/

/-- The configuration `c` with `triggerMetadata[k]` replaced by `v`. -/
def ScalerConfig.withTrigger (c : ScalerConfig) (k v : String) : ScalerConfig :=
  { c with TriggerMetadata := c.TriggerMetadata.set k v }

/-- The seven required keys of `triggerMetadata`, in the order in which the parser looks
them up. -/
def requiredKeys : List String :=
  ["targetValue", "resourceURI", "resourceGroupName", "metricName", "metricAggregationType",
    "subscriptionId", "tenantId"]

/-- The characters `'0'` to `'9'`. -/
def isDecimalDigit (c : Char) : Bool :=
  decide (48 ≤ c.toNat) && decide (c.toNat ≤ 57)

/-- The number written by the decimal digits `ds` after the digits already read gave `a`;
plain natural-number arithmetic, no bound. -/
def decimalFrom (a : Nat) (ds : List Char) : Nat :=
  ds.foldl (fun a c => a * 10 + (c.toNat - 48)) a

/-- A non-empty string of decimal digits, with its value. -/
def decimalDigits (ds : List Char) : Option Nat :=
  if ds ≠ [] ∧ ds.all isDecimalDigit = true then some (decimalFrom 0 ds) else none

/-- The integer written by `s` when `s` is a base-10 literal of a signed 64-bit integer: an
optional sign `+` or `-`, then one or more decimal digits, denoting a number between
`-2^63` and `2^63 - 1`. -/
def int64Literal (s : String) : Option Int :=
  match s.data with
  | '-' :: ds =>
    match decimalDigits ds with
    | some v => if v ≤ 2 ^ 63 then some (- (v : Int)) else none
    | none => none
  | '+' :: ds =>
    match decimalDigits ds with
    | some v => if v < 2 ^ 63 then some (v : Int) else none
    | none => none
  | ds =>
    match decimalDigits ds with
    | some v => if v < 2 ^ 63 then some (v : Int) else none
    | none => none

/-- The collaborators answer the calls made by the parser on `c'` as they do on `c`. -/
def Externals.agreeOn (ext : Externals) (c c' : ScalerConfig) : Prop :=
  ext.getParameterFromConfig c' "activeDirectoryClientId" true
      = ext.getParameterFromConfig c "activeDirectoryClientId" true ∧
  ext.ParseEnvironmentProperty c'.TriggerMetadata "azureResourceManagerEndpoint"
      (fun env => .ok env.ResourceManagerEndpoint)
    = ext.ParseEnvironmentProperty c.TriggerMetadata "azureResourceManagerEndpoint"
      (fun env => .ok env.ResourceManagerEndpoint) ∧
  ext.ParseActiveDirectoryEndpoint c'.TriggerMetadata
    = ext.ParseActiveDirectoryEndpoint c.TriggerMetadata

/-- Every check that `parseAzureMonitorMetadata` makes before it looks up the required key
`k` passes on `c`: the required keys listed before `k` are non-empty, and the format checks
made before `k` succeed. -/
def passesChecksBefore (c : ScalerConfig) (k : String) : Prop :=
  (∀ k' ∈ requiredKeys.takeWhile (fun k' => k' != k), c.TriggerMetadata.index k' ≠ "") ∧
  (k ≠ "targetValue" → ∃ v, ParseInt (c.TriggerMetadata.index "targetValue") = .ok v) ∧
  (k ≠ "targetValue" → k ≠ "resourceURI" →
    (Split (c.TriggerMetadata.index "resourceURI") '/').length = 3) ∧
  (k = "subscriptionId" ∨ k = "tenantId" →
    c.TriggerMetadata.index "metricAggregationInterval" = "" ∨
    (Split (c.TriggerMetadata.index "metricAggregationInterval") ':').length = 3)

/-- The field checks of the parser all pass on `c`, and `targetValue` is read as `v`. -/
def fieldChecks (c : ScalerConfig) (v : Int) : Prop :=
  c.TriggerMetadata.index "targetValue" ≠ "" ∧
  ParseInt (c.TriggerMetadata.index "targetValue") = .ok v ∧
  c.TriggerMetadata.index "resourceURI" ≠ "" ∧
  (Split (c.TriggerMetadata.index "resourceURI") '/').length = 3 ∧
  c.TriggerMetadata.index "resourceGroupName" ≠ "" ∧
  c.TriggerMetadata.index "metricName" ≠ "" ∧
  c.TriggerMetadata.index "metricAggregationType" ≠ "" ∧
  (c.TriggerMetadata.index "metricAggregationInterval" = "" ∨
    (Split (c.TriggerMetadata.index "metricAggregationInterval") ':').length = 3) ∧
  c.TriggerMetadata.index "subscriptionId" ≠ "" ∧
  c.TriggerMetadata.index "tenantId" ≠ ""

/-- The descriptor that the parser has built when it reaches its last line: the values of
`triggerMetadata`, the target value `v`, the credentials `cred` and the two endpoints. -/
def descriptorOf (c : ScalerConfig) (v : Int) (cred : String × String) (rm ad : String) :
    azureMonitorMetadata :=
  { azureMonitorInfo :=
      { ResourceURI := c.TriggerMetadata.index "resourceURI"
        TenantID := c.TriggerMetadata.index "tenantId"
        SubscriptionID := c.TriggerMetadata.index "subscriptionId"
        ResourceGroupName := c.TriggerMetadata.index "resourceGroupName"
        Name := c.TriggerMetadata.index "metricName"
        Namespace := c.TriggerMetadata.index "metricNamespace"
        Filter := c.TriggerMetadata.index "metricFilter"
        AggregationInterval := c.TriggerMetadata.index "metricAggregationInterval"
        AggregationType := c.TriggerMetadata.index "metricAggregationType"
        ClientID := cred.1
        ClientPassword := cred.2
        AzureResourceManagerEndpoint := rm
        ActiveDirectoryEndpoint := ad }
    targetValue := v
    scalerIndex := c.ScalerIndex }

/-! ## Rows of the test table `testParseAzMonitorMetadata` -/

/-- `testAzMonitorResolvedEnv`. -/
def testAzMonitorResolvedEnv : StringMap :=
  StringMap.ofList [("CLIENT_ID", "xxx"), ("CLIENT_PASSWORD", "yyy")]

/-- Row "nothing passed". -/
def nothingPassed : ScalerConfig :=
  { TriggerMetadata := StringMap.ofList []
    ResolvedEnv := StringMap.ofList []
    AuthParams := StringMap.ofList []
    PodIdentity := ""
    ScalerIndex := 0 }

/-- Row "properly formed". -/
def properlyFormed : ScalerConfig :=
  { TriggerMetadata := StringMap.ofList
      [("resourceURI", "test/resource/uri"), ("tenantId", "123"), ("subscriptionId", "456"),
        ("resourceGroupName", "test"), ("metricName", "metric"),
        ("metricAggregationInterval", "0:15:0"), ("metricAggregationType", "Average"),
        ("activeDirectoryClientId", "CLIENT_ID"),
        ("activeDirectoryClientPasswordFromEnv", "CLIENT_PASSWORD"), ("targetValue", "5"),
        ("metricNamespace", "namespace")]
    ResolvedEnv := testAzMonitorResolvedEnv
    AuthParams := StringMap.ofList []
    PodIdentity := ""
    ScalerIndex := 0 }

/-- Row "missing tenantId". -/
def missingTenantId : ScalerConfig :=
  { TriggerMetadata := StringMap.ofList
      [("resourceURI", "test/resource/uri"), ("subscriptionId", "456"),
        ("resourceGroupName", "test"), ("metricName", "metric"),
        ("metricAggregationInterval", "0:15:0"), ("metricAggregationType", "Average"),
        ("activeDirectoryClientId", "CLIENT_ID"),
        ("activeDirectoryClientPassword", "CLIENT_PASSWORD"), ("targetValue", "5")]
    ResolvedEnv := testAzMonitorResolvedEnv
    AuthParams := StringMap.ofList []
    PodIdentity := ""
    ScalerIndex := 0 }

/-- Row "properly formed" with a client password in `authParams` as well, different from
the one that `activeDirectoryClientPasswordFromEnv` leads to. -/
def bothSecrets : ScalerConfig :=
  { properlyFormed with
    AuthParams := StringMap.ofList [("activeDirectoryClientPassword", "password")] }

/-- The descriptor of row "properly formed", with the endpoints of the public cloud. -/
def properlyFormedMeta : azureMonitorMetadata :=
  { azureMonitorInfo :=
      { ResourceURI := "test/resource/uri"
        TenantID := "123"
        SubscriptionID := "456"
        ResourceGroupName := "test"
        Name := "metric"
        Namespace := "namespace"
        Filter := ""
        AggregationInterval := "0:15:0"
        AggregationType := "Average"
        ClientID := "CLIENT_ID"
        ClientPassword := "yyy"
        AzureResourceManagerEndpoint := "https://management.azure.com/"
        ActiveDirectoryEndpoint := "https://login.microsoftonline.com/" }
    targetValue := 5
    scalerIndex := 0 }

/-- Row "missing activeDirectoryClientId". -/
def missingClientId : ScalerConfig :=
  { TriggerMetadata := StringMap.ofList
      [("resourceURI", "test/resource/uri"), ("tenantId", "123"), ("subscriptionId", "456"),
        ("resourceGroupName", "test"), ("metricName", "metric"),
        ("metricAggregationInterval", "0:15:0"), ("metricAggregationType", "Average"),
        ("activeDirectoryClientPassword", "CLIENT_PASSWORD"), ("targetValue", "5")]
    ResolvedEnv := testAzMonitorResolvedEnv
    AuthParams := StringMap.ofList []
    PodIdentity := ""
    ScalerIndex := 0 }

/-- Row "missing activeDirectoryClientPassword" with a password given as
`triggerMetadata["activeDirectoryClientPassword"]`, which is not a place the parser reads. -/
def passwordInMetadataOnly : ScalerConfig :=
  { TriggerMetadata := StringMap.ofList
      [("resourceURI", "test/resource/uri"), ("tenantId", "123"), ("subscriptionId", "456"),
        ("resourceGroupName", "test"), ("metricName", "metric"),
        ("metricAggregationInterval", "0:15:0"), ("metricAggregationType", "Average"),
        ("activeDirectoryClientId", "CLIENT_ID"),
        ("activeDirectoryClientPassword", "CLIENT_PASSWORD"), ("targetValue", "5")]
    ResolvedEnv := testAzMonitorResolvedEnv
    AuthParams := StringMap.ofList []
    PodIdentity := ""
    ScalerIndex := 0 }

/-- Row "connection from authParams". -/
def connectionFromAuthParams : ScalerConfig :=
  { TriggerMetadata := StringMap.ofList
      [("resourceURI", "test/resource/uri"), ("tenantId", "123"), ("subscriptionId", "456"),
        ("resourceGroupName", "test"), ("metricName", "metric"),
        ("metricAggregationInterval", "0:15:0"), ("metricAggregationType", "Average"),
        ("targetValue", "5")]
    ResolvedEnv := StringMap.ofList []
    AuthParams := StringMap.ofList
      [("activeDirectoryClientId", "zzz"), ("activeDirectoryClientPassword", "password")]
    PodIdentity := ""
    ScalerIndex := 0 }

/-- Row "connection with podIdentity". -/
def connectionWithPodIdentity : ScalerConfig :=
  { TriggerMetadata := StringMap.ofList
      [("resourceURI", "test/resource/uri"), ("tenantId", "123"), ("subscriptionId", "456"),
        ("resourceGroupName", "test"), ("metricName", "metric"),
        ("metricAggregationInterval", "0:15:0"), ("metricAggregationType", "Average"),
        ("targetValue", "5")]
    ResolvedEnv := StringMap.ofList []
    AuthParams := StringMap.ofList []
    PodIdentity := PodIdentityProviderAzure
    ScalerIndex := 0 }

/-- Row "wrong podIdentity". -/
def wrongPodIdentity : ScalerConfig :=
  { connectionWithPodIdentity with PodIdentity := "notAzure" }

/-- `testAzureResourceManagerEndpoint`. -/
def testAzureResourceManagerEndpoint : String := "testAzureResourceManagerEndpoint"

/-- `testActiveDirectoryEndpoint`, a constant of another test file of the package: some
non-empty endpoint text. -/
def testActiveDirectoryEndpoint : String := "testActiveDirectoryEndpoint"

/-- Row "private cloud". -/
def privateCloud : ScalerConfig :=
  { TriggerMetadata := StringMap.ofList
      [("resourceURI", "test/resource/uri"), ("tenantId", "123"), ("subscriptionId", "456"),
        ("resourceGroupName", "test"), ("metricName", "metric"),
        ("metricAggregationInterval", "0:15:0"), ("metricAggregationType", "Average"),
        ("activeDirectoryClientId", "CLIENT_ID"),
        ("activeDirectoryClientPasswordFromEnv", "CLIENT_PASSWORD"), ("targetValue", "5"),
        ("metricNamespace", "namespace"), ("cloud", "private"),
        ("azureResourceManagerEndpoint", testAzureResourceManagerEndpoint),
        ("activeDirectoryEndpoint", testActiveDirectoryEndpoint)]
    ResolvedEnv := testAzMonitorResolvedEnv
    AuthParams := StringMap.ofList []
    PodIdentity := ""
    ScalerIndex := 0 }

/-! ## The scaler -/

/-- `v2beta2.MetricTarget`; the field `Type` is called `TargetType` here. -/
structure MetricTarget where
  TargetType : String
  Value : Option Int
  AverageValue : Option Int
  deriving DecidableEq, Repr

/-- `v2beta2.MetricIdentifier`. -/
structure MetricIdentifier where
  Name : String
  deriving DecidableEq, Repr

/-- `v2beta2.ExternalMetricSource`. -/
structure ExternalMetricSource where
  Metric : MetricIdentifier
  Target : MetricTarget
  deriving DecidableEq, Repr

/-- `v2beta2.MetricSpec`; the field `Type` is called `SourceType` here. -/
structure MetricSpec where
  External : ExternalMetricSource
  SourceType : String
  deriving DecidableEq, Repr

/-- `external_metrics.ExternalMetricValue`: the quantity is the integer it was made from,
the timestamp a number. -/
structure ExternalMetricValue where
  MetricName : String
  Value : Int
  Timestamp : Nat
  deriving DecidableEq, Repr

/-- `azureMonitorScaler`. -/
structure azureMonitorScaler where
  metricType : String
  metadata : azureMonitorMetadata
  podIdentity : String
  deriving DecidableEq, Repr

/-- Functions and values used by the operations of the scaler and defined outside
`azure_monitor_scaler.go`. -/
structure ScalerExternals where
  /-- `GetMetricTargetType(config)`. -/
  GetMetricTargetType : ScalerConfig → Except String String
  /-- `GetMetricTarget(metricType, metricValue)`. -/
  GetMetricTarget : String → Int → MetricTarget
  /-- `GenerateMetricNameWithIndex(scalerIndex, metricName)`. -/
  GenerateMetricNameWithIndex : Int → String → String
  /-- `kedautil.NormalizeString(s)`. -/
  NormalizeString : String → String
  /-- `externalMetricType`. -/
  externalMetricType : String
  /-- `azure.GetAzureMetricValue(ctx, info, podIdentity)`: the metric fetch, an integer or
  an error. -/
  GetAzureMetricValue : MonitorInfo → String → Except String Int
  /-- `metav1.Now()`. -/
  Now : Nat

/-- Modelled from the spec: `GenerateMetricNameWithIndex` is defined in another file of
package `scalers`, outside the given sources. §4.4 and §6: the name is the index prefix
`s<scalerIndex>`, a dash, and the metric name, the index written in decimal. -/
def GenerateMetricNameWithIndex (scalerIndex : Int) (metricName : String) : String :=
  "s" ++ toString scalerIndex ++ "-" ++ metricName

/-- An ASCII upper-case letter: the characters that `asciiLower` changes. -/
abbrev isUpperLetter (c : Char) : Prop :=
  65 ≤ c.toNat ∧ c.toNat ≤ 90

/-- Modelled from the spec: the disallowed characters of §4.4. The spec does not list them;
the model takes the slash, the dot, the colon and the percent sign. -/
abbrev isDisallowed (c : Char) : Prop :=
  c = '/' ∨ c = '.' ∨ c = ':' ∨ c = '%'

/-- Modelled from the spec: `kedautil.NormalizeString` is defined in package `pkg/util`,
outside the given sources. §4.4: the name "is normalized by lower-casing and replacing
disallowed characters". `replace` is the replacement table, applied to every character of
the lower-cased text. -/
def NormalizeString (replace : Char → Char) (s : String) : String :=
  String.mk ((asciiLower s).data.map replace)

/-- Modelled from the spec: the replacement table of `NormalizeString`. A disallowed
character (`isDisallowed`: slash, dot, colon, percent sign) becomes a dash, every other
character is kept. -/
def dashForDisallowed (c : Char) : Char :=
  if c = '/' ∨ c = '.' ∨ c = ':' ∨ c = '%' then '-' else c

/-- A concrete set of collaborators for evaluating the scaler on examples: the average
target type, the modelled name functions, and a fetch that reports the value 7. -/
def sampleScalerExternals : ScalerExternals :=
  { GetMetricTargetType := fun _ => .ok "AverageValue"
    GetMetricTarget := fun metricType v =>
      { TargetType := metricType, Value := none, AverageValue := some v }
    GenerateMetricNameWithIndex := GenerateMetricNameWithIndex
    NormalizeString := NormalizeString dashForDisallowed
    externalMetricType := "External"
    GetAzureMetricValue := fun _ _ => .ok 7
    Now := 0 }

/-- `NewAzureMonitorScaler` creates a new AzureMonitorScaler. -/
def NewAzureMonitorScaler (ext : Externals) (sx : ScalerExternals) (config : ScalerConfig) :
    Except String azureMonitorScaler :=
  match sx.GetMetricTargetType config with
  | .error err => .error ("error getting scaler metric type: " ++ err)
  | .ok metricType =>
    match parseAzureMonitorMetadata ext config with
    | .error err => .error ("error parsing azure monitor metadata: " ++ err)
    | .ok m =>
      .ok { metricType := metricType, metadata := m, podIdentity := config.PodIdentity }

/-- `IsActive` returns true if the Azure Monitor metric value is greater than zero. The Go
result `(bool, error)` is a pair whose second component is `none` for `nil`. -/
def IsActive (sx : ScalerExternals) (s : azureMonitorScaler) : Bool × Option String :=
  match sx.GetAzureMetricValue s.metadata.azureMonitorInfo s.podIdentity with
  | .error err => (false, some err)
  | .ok val => (decide (val > 0), none)

/-- `Close`. -/
def Close (_s : azureMonitorScaler) : Option String :=
  none

/-- `GetMetricSpecForScaling`. -/
def GetMetricSpecForScaling (sx : ScalerExternals) (s : azureMonitorScaler) :
    List MetricSpec :=
  let externalMetric : ExternalMetricSource :=
    { Metric :=
        { Name := sx.GenerateMetricNameWithIndex s.metadata.scalerIndex
            (sx.NormalizeString ("azure-monitor-" ++ s.metadata.azureMonitorInfo.Name)) }
      Target := sx.GetMetricTarget s.metricType s.metadata.targetValue }
  let metricSpec : MetricSpec :=
    { External := externalMetric, SourceType := sx.externalMetricType }
  [metricSpec]

/-- `GetMetrics` returns value for a supported metric and an error if there is a problem
getting the metric. -/
def GetMetrics (sx : ScalerExternals) (s : azureMonitorScaler) (metricName : String) :
    List ExternalMetricValue × Option String :=
  match sx.GetAzureMetricValue s.metadata.azureMonitorInfo s.podIdentity with
  | .error err => ([], some err)
  | .ok val =>
    let metric : ExternalMetricValue :=
      { MetricName := metricName, Value := val, Timestamp := sx.Now }
    ([] ++ [metric], none)

/-- The scaler built from row "properly formed" of the test table at the scaler index
`scalerIndex`, as in `TestAzMonitorGetMetricSpecForScaling`. -/
def mockAzMonitorScaler (scalerIndex : Int) : azureMonitorScaler :=
  { metricType := ""
    metadata := { properlyFormedMeta with scalerIndex := scalerIndex }
    podIdentity := "" }

/-- The scaler of `mockAzMonitorScaler 0` with a metric name that has upper-case letters and
each of the four disallowed characters. -/
def mixedNameScaler : azureMonitorScaler :=
  { metricType := ""
    metadata :=
      { properlyFormedMeta with
        azureMonitorInfo :=
          { properlyFormedMeta.azureMonitorInfo with Name := "My.Metric/Name:50%" } }
    podIdentity := "" }

/-! ## The checks of the parser, one by one

Each check of `parseAzureMonitorMetadata` is given as a function of its own: `none` when the
check passes, and otherwise the error with which the parser leaves at that check. They are
compared with the parser below. -/

/-- Check on `targetValue`: present, non-empty and a 64-bit integer. -/
def checkTargetValue (ext : Externals) (c : ScalerConfig) : Option String :=
  if c.TriggerMetadata.index "targetValue" = "" then some "no targetValue given"
  else
    match ParseInt (c.TriggerMetadata.index "targetValue") with
    | .error err =>
      some ("error parsing azure monitor metadata " ++ targetValueName ++ ": " ++ err.Error ext)
    | .ok _ => none

/-- Check on `resourceURI`: present, non-empty and of three segments. -/
def checkResourceURI (c : ScalerConfig) : Option String :=
  if c.TriggerMetadata.index "resourceURI" = "" then some "no resourceURI given"
  else if (Split (c.TriggerMetadata.index "resourceURI") '/').length ≠ 3 then
    some "resourceURI not in the correct format. Should be namespace/resource_type/resource_name"
  else none

/-- Check on a key that only has to be present and non-empty. -/
def checkRequired (k : String) (c : ScalerConfig) : Option String :=
  if c.TriggerMetadata.index k = "" then some ("no " ++ k ++ " given") else none

/-- Check on `metricAggregationInterval`: when given, of three segments. -/
def checkAggregationInterval (c : ScalerConfig) : Option String :=
  if c.TriggerMetadata.index "metricAggregationInterval" ≠ "" ∧
      (Split (c.TriggerMetadata.index "metricAggregationInterval") ':').length ≠ 3 then
    some "metricAggregationInterval not in the correct format. Should be hh:mm:ss"
  else none

/-- Check of the credentials: `parseAzurePodIdentityParams` succeeds. -/
def checkCredentials (ext : Externals) (c : ScalerConfig) : Option String :=
  match parseAzurePodIdentityParams ext c with
  | .error e => some e
  | .ok _ => none

/-- Check of the management endpoint: `azure.ParseEnvironmentProperty` succeeds. -/
def checkManagementEndpoint (ext : Externals) (c : ScalerConfig) : Option String :=
  match ext.ParseEnvironmentProperty c.TriggerMetadata "azureResourceManagerEndpoint"
      (fun env => .ok env.ResourceManagerEndpoint) with
  | .error e => some e
  | .ok _ => none

/-- Check of the identity endpoint: `azure.ParseActiveDirectoryEndpoint` succeeds. -/
def checkIdentityEndpoint (ext : Externals) (c : ScalerConfig) : Option String :=
  match ext.ParseActiveDirectoryEndpoint c.TriggerMetadata with
  | .error e => some e
  | .ok _ => none

/-- The checks in the order targetValue, resourceURI, resourceGroupName, metricName,
metricAggregationType, metricAggregationInterval, subscriptionId, tenantId, credentials,
management endpoint, identity endpoint. -/
def orderedChecks : List (Externals → ScalerConfig → Option String) :=
  [checkTargetValue,
   fun _ => checkResourceURI,
   fun _ => checkRequired "resourceGroupName",
   fun _ => checkRequired "metricName",
   fun _ => checkRequired "metricAggregationType",
   fun _ => checkAggregationInterval,
   fun _ => checkRequired "subscriptionId",
   fun _ => checkRequired "tenantId",
   checkCredentials,
   checkManagementEndpoint,
   checkIdentityEndpoint]

/-- The error of the first check of `orderedChecks` that fails, if one fails. -/
def firstFailure (ext : Externals) (c : ScalerConfig) : Option String :=
  orderedChecks.findSome? (fun chk => chk ext c)

/-- Row "wrong podIdentity" without the key `tenantId`. -/
def wrongPodIdentityNoTenantId : ScalerConfig :=
  { TriggerMetadata := StringMap.ofList
      [("resourceURI", "test/resource/uri"), ("subscriptionId", "456"),
        ("resourceGroupName", "test"), ("metricName", "metric"),
        ("metricAggregationInterval", "0:15:0"), ("metricAggregationType", "Average"),
        ("targetValue", "5")]
    ResolvedEnv := StringMap.ofList []
    AuthParams := StringMap.ofList []
    PodIdentity := "notAzure"
    ScalerIndex := 0 }

/-- Row "private cloud" without the key `activeDirectoryEndpoint`. -/
def privateCloudNoIdentityEndpoint : ScalerConfig :=
  { TriggerMetadata := StringMap.ofList
      [("resourceURI", "test/resource/uri"), ("tenantId", "123"), ("subscriptionId", "456"),
        ("resourceGroupName", "test"), ("metricName", "metric"),
        ("metricAggregationInterval", "0:15:0"), ("metricAggregationType", "Average"),
        ("activeDirectoryClientId", "CLIENT_ID"),
        ("activeDirectoryClientPasswordFromEnv", "CLIENT_PASSWORD"), ("targetValue", "5"),
        ("metricNamespace", "namespace"), ("cloud", "private"),
        ("azureResourceManagerEndpoint", testAzureResourceManagerEndpoint)]
    ResolvedEnv := testAzMonitorResolvedEnv
    AuthParams := StringMap.ofList []
    PodIdentity := ""
    ScalerIndex := 0 }

/-- Row "private cloud" without the keys `azureResourceManagerEndpoint` and
`activeDirectoryEndpoint`. -/
def privateCloudNoEndpoints : ScalerConfig :=
  { TriggerMetadata := StringMap.ofList
      [("resourceURI", "test/resource/uri"), ("tenantId", "123"), ("subscriptionId", "456"),
        ("resourceGroupName", "test"), ("metricName", "metric"),
        ("metricAggregationInterval", "0:15:0"), ("metricAggregationType", "Average"),
        ("activeDirectoryClientId", "CLIENT_ID"),
        ("activeDirectoryClientPasswordFromEnv", "CLIENT_PASSWORD"), ("targetValue", "5"),
        ("metricNamespace", "namespace"), ("cloud", "private")]
    ResolvedEnv := testAzMonitorResolvedEnv
    AuthParams := StringMap.ofList []
    PodIdentity := ""
    ScalerIndex := 0 }

/-! ## Lemmas on maps and on `strings.Split` -/

theorem StringMap.index_eq_empty_iff (m : StringMap) (k : String) :
    m.index k = "" ↔ m k = none ∨ m k = some "" := by
  unfold StringMap.index
  cases m k <;> simp

theorem StringMap.present_iff (m : StringMap) (k : String) :
    ((m k).isSome && m.index k != "") = true ↔ m.index k ≠ "" := by
  unfold StringMap.index
  cases m k <;> simp

theorem StringMap.getD_eq_index (m : StringMap) (k : String) : (m k).getD "" = m.index k :=
  rfl

theorem StringMap.index_of_not_isSome (m : StringMap) (k : String)
    (h : ¬ (m k).isSome = true) : m.index k = "" := by
  unfold StringMap.index
  cases hk : m k <;> simp_all

theorem StringMap.index_set_same (m : StringMap) (k v : String) : (m.set k v).index k = v := by
  simp [StringMap.index, StringMap.set]

theorem StringMap.index_set_other (m : StringMap) (k k' v : String) (h : k' ≠ k) :
    (m.set k v).index k' = m.index k' := by
  simp [StringMap.index, StringMap.set, h]

theorem splitChars_length (sep : Char) (cs : List Char) :
    (splitChars sep cs).length = cs.count sep + 1 := by
  induction cs with
  | nil => simp [splitChars]
  | cons c cs ih =>
    unfold splitChars
    by_cases h : c = sep
    · subst h
      simp [ih]
    · have h' : ¬ (c == sep) = true := by simpa using h
      rw [if_neg h, List.count_cons]
      simp only [h', if_false, Nat.add_zero]
      rcases hs : splitChars sep cs with _ | ⟨seg, rest⟩
      · rw [hs] at ih
        simp at ih
      · rw [hs] at ih
        simpa using ih

theorem Split_length (s : String) (sep : Char) :
    (Split s sep).length = s.data.count sep + 1 := by
  simp [Split, splitChars_length]

/-! ## `strconv.ParseInt` against decimal literals -/

theorem digitVal_of_isDecimalDigit (c : Char) (h : isDecimalDigit c = true) :
    digitVal c = some (c.toNat - 48) ∧ c.toNat - 48 < 10 := by
  simp only [isDecimalDigit, Bool.and_eq_true, decide_eq_true_eq] at h
  refine ⟨by simp [digitVal, h], by omega⟩

theorem isDecimalDigit_of_digitVal (c : Char) (d : Nat) (h : digitVal c = some d)
    (hd : d < 10) : isDecimalDigit c = true ∧ d = c.toNat - 48 := by
  unfold digitVal at h
  split_ifs at h with h1 h2
  · simp only [Option.some.injEq] at h
    simp [isDecimalDigit, h1, h]
  · simp only [Option.some.injEq] at h
    omega

theorem decimalFrom_nil (a : Nat) : decimalFrom a [] = a := rfl

theorem decimalFrom_cons (a : Nat) (c : Char) (cs : List Char) :
    decimalFrom a (c :: cs) = decimalFrom (a * 10 + (c.toNat - 48)) cs := rfl

theorem le_decimalFrom (cs : List Char) (a : Nat) : a ≤ decimalFrom a cs := by
  induction cs generalizing a with
  | nil => rw [decimalFrom_nil]
  | cons c cs ih =>
    have := ih (a * 10 + (c.toNat - 48))
    rw [decimalFrom_cons]
    omega

theorem parseUintLoop_of_digits (cs : List Char) (a : Nat)
    (hall : cs.all isDecimalDigit = true) (hv : decimalFrom a cs < 2 ^ 64) :
    parseUintLoop cs a = (decimalFrom a cs, none) := by
  induction cs generalizing a with
  | nil => simp [parseUintLoop, decimalFrom_nil]
  | cons c cs ih =>
    simp only [List.all_cons, Bool.and_eq_true] at hall
    obtain ⟨hd, hlt⟩ := digitVal_of_isDecimalDigit c hall.1
    simp only [decimalFrom_cons] at hv ⊢
    have hle := le_decimalFrom cs (a * 10 + (c.toNat - 48))
    have h1 : ¬ a ≥ uintCutoff := by unfold uintCutoff; omega
    have h2 : a * 10 % 2 ^ 64 = a * 10 := Nat.mod_eq_of_lt (by omega)
    have h3 : (a * 10 + (c.toNat - 48)) % 2 ^ 64 = a * 10 + (c.toNat - 48) :=
      Nat.mod_eq_of_lt (by omega)
    have h4 : ¬ (a * 10 + (c.toNat - 48) < a * 10 ∨ a * 10 + (c.toNat - 48) > maxVal) := by
      unfold maxVal; omega
    have h5 : ¬ c.toNat - 48 ≥ 10 := by omega
    simp only [parseUintLoop, hd, h5, h1, h2, h3, h4, if_false]
    exact ih _ hall.2 hv

theorem parseUintLoop_sound (cs : List Char) (a v : Nat)
    (h : parseUintLoop cs a = (v, none)) :
    cs.all isDecimalDigit = true ∧ decimalFrom a cs = v := by
  induction cs generalizing a with
  | nil =>
    simp only [parseUintLoop, Prod.mk.injEq, and_true] at h
    simp [decimalFrom_nil, h]
  | cons c cs ih =>
    simp only [parseUintLoop] at h
    rcases hd : digitVal c with _ | d
    · simp [hd] at h
    · simp only [hd] at h
      split_ifs at h with h1 h2 h3
      · simp at h
      · simp at h
      · simp at h
      · have hd10 : d < 10 := by omega
        obtain ⟨hc, hdeq⟩ := isDecimalDigit_of_digitVal c d hd hd10
        have ha : a * 10 < 2 ^ 64 := by unfold uintCutoff at h2; omega
        have h2' : a * 10 % 2 ^ 64 = a * 10 := Nat.mod_eq_of_lt ha
        rw [h2'] at h3 h
        have hsum : a * 10 + d < 2 ^ 64 := by
          by_contra hge
          have : (a * 10 + d) % 2 ^ 64 = a * 10 + d - 2 ^ 64 := by
            rw [Nat.mod_eq_sub_mod (by omega), Nat.mod_eq_of_lt (by omega)]
          omega
        rw [Nat.mod_eq_of_lt hsum] at h
        obtain ⟨hall, hval⟩ := ih _ h
        subst hdeq
        simp [hc, hall, decimalFrom_cons, hval]

theorem parseUintLoop_range (cs : List Char) (a x : Nat)
    (h : parseUintLoop cs a = (x, some .range)) : x = maxVal := by
  induction cs generalizing a with
  | nil => simp [parseUintLoop] at h
  | cons c cs ih =>
    simp only [parseUintLoop] at h
    rcases hd : digitVal c with _ | d
    · simp [hd] at h
    · simp only [hd] at h
      split_ifs at h with h1 h2 h3
      · simp at h
      · simp only [Prod.mk.injEq, and_true] at h; exact h.symm
      · simp only [Prod.mk.injEq, and_true] at h; exact h.symm
      · exact ih _ h

theorem decimalDigits_eq_some (ds : List Char) (v : Nat) :
    decimalDigits ds = some v ↔
      ds ≠ [] ∧ ds.all isDecimalDigit = true ∧ decimalFrom 0 ds = v := by
  unfold decimalDigits
  split_ifs with h
  · simp [h.1, h.2]
  · simp only [false_iff, not_and]
    intro h1 h2
    exact absurd ⟨h1, h2⟩ h

/-- The three possible outcomes of `ParseUint` on the characters `ds`. -/
theorem ParseUint_cases (ds : List Char) :
    (∃ v, ParseUint (String.mk ds) = (v, none) ∧ decimalDigits ds = some v) ∨
    (∃ x, ParseUint (String.mk ds) = (x, some .invalid)) ∨
    ParseUint (String.mk ds) = (maxVal, some .range) := by
  unfold ParseUint
  by_cases hs : String.mk ds = ""
  · simp [hs]
  · have hne : ds ≠ [] := by
      intro h
      exact hs (by rw [h])
    simp only [hs, if_false]
    rcases hr : parseUintLoop ds 0 with ⟨x, _ | e⟩
    · left
      obtain ⟨hall, hval⟩ := parseUintLoop_sound ds 0 x hr
      exact ⟨x, rfl, (decimalDigits_eq_some ds x).2 ⟨hne, hall, hval⟩⟩
    · cases e with
      | invalid => right; left; exact ⟨x, rfl⟩
      | range =>
        right; right
        rw [parseUintLoop_range ds 0 x hr]

theorem ParseUint_of_digits (ds : List Char) (v : Nat) (h : decimalDigits ds = some v)
    (hv : v < 2 ^ 64) : ParseUint (String.mk ds) = (v, none) := by
  obtain ⟨hne, hall, hval⟩ := (decimalDigits_eq_some ds v).1 h
  have hs : String.mk ds ≠ "" := by
    intro h
    exact hne (by simpa using congrArg String.data h)
  unfold ParseUint
  simp only [hs, if_false]
  rw [parseUintLoop_of_digits ds 0 hall (by rw [hval]; exact hv), hval]

theorem int64Literal_minus (cs : List Char) :
    int64Literal (String.mk ('-' :: cs)) =
      match decimalDigits cs with
      | some v => if v ≤ 2 ^ 63 then some (- (v : Int)) else none
      | none => none := rfl

theorem int64Literal_plus (cs : List Char) :
    int64Literal (String.mk ('+' :: cs)) =
      match decimalDigits cs with
      | some v => if v < 2 ^ 63 then some (v : Int) else none
      | none => none := rfl

theorem int64Literal_unsigned (ds : List Char) (h : ∀ cs, ds ≠ '-' :: cs)
    (h' : ∀ cs, ds ≠ '+' :: cs) :
    int64Literal (String.mk ds) =
      match decimalDigits ds with
      | some v => if v < 2 ^ 63 then some (v : Int) else none
      | none => none := by
  unfold int64Literal
  split
  · rename_i ds' heq
    exact absurd heq (h ds')
  · rename_i ds' heq
    exact absurd heq (h' ds')
  · rfl

theorem ParseInt_minus (cs : List Char) :
    ParseInt (String.mk ('-' :: cs)) =
      match ParseUint (String.mk cs) with
      | (_, some .invalid) => .error ⟨"ParseInt", String.mk ('-' :: cs), .invalid⟩
      | (un, _) =>
        if un > 2 ^ 63 then .error ⟨"ParseInt", String.mk ('-' :: cs), .range⟩
        else .ok (- (un : Int)) := by
  simp only [ParseInt, or_true, if_true, not_true_eq_false, false_and, if_false, true_and]

theorem ParseInt_other (c : Char) (cs : List Char) (hm : c ≠ '-') :
    ParseInt (String.mk (c :: cs)) =
      match ParseUint (String.mk (if c = '+' then cs else c :: cs)) with
      | (_, some .invalid) => .error ⟨"ParseInt", String.mk (c :: cs), .invalid⟩
      | (un, _) =>
        if un ≥ 2 ^ 63 then .error ⟨"ParseInt", String.mk (c :: cs), .range⟩
        else .ok (un : Int) := by
  simp only [ParseInt, hm, or_false, not_false_eq_true, true_and, if_false, false_and]
  by_cases hp : c = '+'
  · simp only [hp, if_true]
  · simp only [hp, if_false]

theorem decimalDigits_large_of_error (ds : List Char) (x : Nat) (e : NumErrKind)
    (h : ParseUint (String.mk ds) = (x, some e)) (w : Nat) (hw : decimalDigits ds = some w) :
    2 ^ 64 ≤ w := by
  by_contra hlt
  rw [ParseUint_of_digits ds w hw (by omega)] at h
  simp at h

/-- `ParseInt` after an optional `+`: the digits `ds` are read as an unsigned number, which
must lie below `2^63`. -/
theorem ParseInt_tail_nonneg (num : String) (ds : List Char) :
    match (match decimalDigits ds with
      | some v => if v < 2 ^ 63 then some (v : Int) else none
      | none => none) with
    | some v =>
      (match ParseUint (String.mk ds) with
        | (_, some .invalid) => (.error ⟨"ParseInt", num, .invalid⟩ : Except NumError Int)
        | (un, _) =>
          if un ≥ 2 ^ 63 then .error ⟨"ParseInt", num, .range⟩
          else .ok (un : Int)) = .ok v
    | none => ∃ kind,
      (match ParseUint (String.mk ds) with
        | (_, some .invalid) => (.error ⟨"ParseInt", num, .invalid⟩ : Except NumError Int)
        | (un, _) =>
          if un ≥ 2 ^ 63 then .error ⟨"ParseInt", num, .range⟩
          else .ok (un : Int)) = .error ⟨"ParseInt", num, kind⟩ := by
  rcases ParseUint_cases ds with ⟨v, hv, hd⟩ | ⟨x, hx⟩ | hr
  · simp only [hd, hv]
    by_cases hlt : v < 2 ^ 63
    · have : ¬ v ≥ 2 ^ 63 := by omega
      simp only [hlt, this, if_true, if_false]
    · have : v ≥ 2 ^ 63 := by omega
      simp only [hlt, this, if_true, if_false]
      exact ⟨_, rfl⟩
  · have hbig := decimalDigits_large_of_error ds x _ hx
    rcases hd : decimalDigits ds with _ | w
    · simp only [hx]
      exact ⟨_, rfl⟩
    · have : ¬ w < 2 ^ 63 := by have := hbig w hd; omega
      simp only [hx, this, if_false]
      exact ⟨_, rfl⟩
  · have hbig := decimalDigits_large_of_error ds _ _ hr
    have hmax : maxVal ≥ 2 ^ 63 := by unfold maxVal; omega
    rcases hd : decimalDigits ds with _ | w
    · simp only [hr, hmax, if_true]
      exact ⟨_, rfl⟩
    · have : ¬ w < 2 ^ 63 := by have := hbig w hd; omega
      simp only [hr, this, hmax, if_true, if_false]
      exact ⟨_, rfl⟩

/-- `ParseInt` after a `-`: the digits `ds` are read as an unsigned number, which must not
exceed `2^63`. -/
theorem ParseInt_tail_neg (num : String) (ds : List Char) :
    match (match decimalDigits ds with
      | some v => if v ≤ 2 ^ 63 then some (- (v : Int)) else none
      | none => none) with
    | some v =>
      (match ParseUint (String.mk ds) with
        | (_, some .invalid) => (.error ⟨"ParseInt", num, .invalid⟩ : Except NumError Int)
        | (un, _) =>
          if un > 2 ^ 63 then .error ⟨"ParseInt", num, .range⟩
          else .ok (- (un : Int))) = .ok v
    | none => ∃ kind,
      (match ParseUint (String.mk ds) with
        | (_, some .invalid) => (.error ⟨"ParseInt", num, .invalid⟩ : Except NumError Int)
        | (un, _) =>
          if un > 2 ^ 63 then .error ⟨"ParseInt", num, .range⟩
          else .ok (- (un : Int))) = .error ⟨"ParseInt", num, kind⟩ := by
  rcases ParseUint_cases ds with ⟨v, hv, hd⟩ | ⟨x, hx⟩ | hr
  · simp only [hd, hv]
    by_cases hlt : v ≤ 2 ^ 63
    · have : ¬ v > 2 ^ 63 := by omega
      simp only [hlt, this, if_true, if_false]
    · have : v > 2 ^ 63 := by omega
      simp only [hlt, this, if_true, if_false]
      exact ⟨_, rfl⟩
  · have hbig := decimalDigits_large_of_error ds x _ hx
    rcases hd : decimalDigits ds with _ | w
    · simp only [hx]
      exact ⟨_, rfl⟩
    · have : ¬ w ≤ 2 ^ 63 := by have := hbig w hd; omega
      simp only [hx, this, if_false]
      exact ⟨_, rfl⟩
  · have hbig := decimalDigits_large_of_error ds _ _ hr
    have hmax : maxVal > 2 ^ 63 := by unfold maxVal; omega
    rcases hd : decimalDigits ds with _ | w
    · simp only [hr, hmax, if_true]
      exact ⟨_, rfl⟩
    · have : ¬ w ≤ 2 ^ 63 := by have := hbig w hd; omega
      simp only [hr, this, hmax, if_true, if_false]
      exact ⟨_, rfl⟩

/-- `strconv.ParseInt(s, 10, 64)` accepts exactly the base-10 literals of signed 64-bit
integers, with their value; on any other text it returns a `NumError` for `s`. -/
theorem ParseInt_spec (s : String) :
    match int64Literal s with
    | some v => ParseInt s = .ok v
    | none => ∃ kind, ParseInt s = .error ⟨"ParseInt", s, kind⟩ := by
  obtain ⟨l⟩ := s
  rcases l with _ | ⟨c, cs⟩
  · exact ⟨.invalid, rfl⟩
  · by_cases hm : c = '-'
    · subst hm
      rw [int64Literal_minus, ParseInt_minus]
      exact ParseInt_tail_neg _ cs
    · rw [ParseInt_other c cs hm]
      by_cases hp : c = '+'
      · subst hp
        rw [int64Literal_plus]
        simp only [if_true]
        exact ParseInt_tail_nonneg _ cs
      · rw [int64Literal_unsigned (c :: cs) (by simpa using hm) (by simpa using hp)]
        simp only [hp, if_false]
        exact ParseInt_tail_nonneg _ (c :: cs)

theorem ParseInt_of_literal (s : String) (v : Int) (h : int64Literal s = some v) :
    ParseInt s = .ok v := by
  have := ParseInt_spec s
  rw [h] at this
  exact this

theorem ParseInt_of_not_literal (s : String) (h : int64Literal s = none) :
    ∃ kind, ParseInt s = .error ⟨"ParseInt", s, kind⟩ := by
  have := ParseInt_spec s
  rw [h] at this
  exact this

/-! ## The decimal representation of an integer is a literal -/

theorem digitChar_spec (k : Nat) (hk : k < 10) :
    isDecimalDigit (Nat.digitChar k) = true ∧ (Nat.digitChar k).toNat - 48 = k := by
  interval_cases k <;> decide

theorem decimalFrom_append (a : Nat) (xs ys : List Char) :
    decimalFrom a (xs ++ ys) = decimalFrom (decimalFrom a xs) ys := by
  simp [decimalFrom, List.foldl_append]

theorem toDigitsCore_spec (fuel : Nat) : ∀ (n : Nat) (ds : List Char), n < fuel →
    ∃ pre, Nat.toDigitsCore 10 fuel n ds = pre ++ ds ∧ pre ≠ [] ∧
      pre.all isDecimalDigit = true ∧ ∀ a, decimalFrom a pre = a * 10 ^ pre.length + n := by
  induction fuel with
  | zero => intro n ds h; omega
  | succ fuel ih =>
    intro n ds h
    obtain ⟨hdig, hval⟩ := digitChar_spec (n % 10) (Nat.mod_lt _ (by decide))
    unfold Nat.toDigitsCore
    by_cases h0 : n / 10 = 0
    · refine ⟨[Nat.digitChar (n % 10)], by simp [h0], by simp, by simp [hdig], ?_⟩
      intro a
      have : n % 10 = n := Nat.mod_eq_of_lt (by omega)
      simp only [decimalFrom_cons, decimalFrom_nil, hval, List.length_singleton, pow_one]
      omega
    · have hlt : n / 10 < fuel := by omega
      obtain ⟨pre, hpre, hne, hall, hv⟩ := ih (n / 10) (Nat.digitChar (n % 10) :: ds) hlt
      refine ⟨pre ++ [Nat.digitChar (n % 10)], by simp [h0, hpre], by simp, ?_, ?_⟩
      · simp [hall, hdig]
      · intro a
        rw [decimalFrom_append, hv a, decimalFrom_cons, decimalFrom_nil, hval]
        simp only [List.length_append, List.length_singleton, pow_succ]
        have := Nat.div_add_mod n 10
        nlinarith [this]

theorem decimalDigits_toDigits (m : Nat) : decimalDigits (Nat.toDigits 10 m) = some m := by
  obtain ⟨pre, hpre, hne, hall, hv⟩ := toDigitsCore_spec (m + 1) m [] (by omega)
  rw [List.append_nil] at hpre
  unfold Nat.toDigits
  rw [hpre]
  refine (decimalDigits_eq_some pre m).2 ⟨hne, hall, ?_⟩
  simpa using hv 0

theorem toDigits_head (m : Nat) (c : Char) (cs : List Char)
    (h : Nat.toDigits 10 m = c :: cs) : isDecimalDigit c = true := by
  have := (decimalDigits_eq_some _ _).1 (decimalDigits_toDigits m)
  rw [h] at this
  simp only [List.all_cons, Bool.and_eq_true] at this
  exact this.2.1.1

theorem int64Literal_natRepr (m : Nat) (hm : m < 2 ^ 63) :
    int64Literal (Nat.repr m) = some (m : Int) := by
  have hu : int64Literal (String.mk (Nat.toDigits 10 m)) =
      match decimalDigits (Nat.toDigits 10 m) with
      | some v => if v < 2 ^ 63 then some (v : Int) else none
      | none => none := by
    apply int64Literal_unsigned
    · intro cs h
      have := toDigits_head m _ _ h
      simp [isDecimalDigit] at this
    · intro cs h
      have := toDigits_head m _ _ h
      simp [isDecimalDigit] at this
  show int64Literal (String.mk (Nat.toDigits 10 m)) = _
  rw [hu, decimalDigits_toDigits]
  simp only [hm, if_true]

/-- The decimal representation of a signed 64-bit integer is a literal of that integer. -/
theorem int64Literal_toString (n : Int) (hlo : -2 ^ 63 ≤ n) (hhi : n < 2 ^ 63) :
    int64Literal (toString n) = some n := by
  cases n with
  | ofNat m =>
    have hm : m < 2 ^ 63 := by
      have : ((m : Nat) : Int) < 2 ^ 63 := hhi
      exact_mod_cast this
    exact int64Literal_natRepr m hm
  | negSucc k =>
    have hk : k + 1 ≤ 2 ^ 63 := by
      have : -2 ^ 63 ≤ Int.negSucc k := hlo
      rw [Int.negSucc_eq] at this
      have h2 : ((k : Int) + 1) ≤ 2 ^ 63 := by linarith
      exact_mod_cast h2
    show int64Literal (String.mk ('-' :: Nat.toDigits 10 (k + 1))) = _
    rw [int64Literal_minus, decimalDigits_toDigits]
    simp only [hk, if_true, Int.negSucc_eq]
    push_cast
    rfl

/-! ## The parser as a chain of checks -/

/-- The parser in closed form: the checks in their order, then the descriptor, whose
fields are the values found in `triggerMetadata`. -/
theorem parseAzureMonitorMetadata_eq (ext : Externals) (c : ScalerConfig) :
    parseAzureMonitorMetadata ext c =
      if c.TriggerMetadata.index "targetValue" = "" then .error "no targetValue given" else
      match ParseInt (c.TriggerMetadata.index "targetValue") with
      | .error err =>
        .error ("error parsing azure monitor metadata " ++ targetValueName ++ ": " ++ err.Error ext)
      | .ok v =>
      if c.TriggerMetadata.index "resourceURI" = "" then .error "no resourceURI given" else
      if (Split (c.TriggerMetadata.index "resourceURI") '/').length ≠ 3 then
        .error "resourceURI not in the correct format. Should be namespace/resource_type/resource_name" else
      if c.TriggerMetadata.index "resourceGroupName" = "" then .error "no resourceGroupName given" else
      if c.TriggerMetadata.index "metricName" = "" then .error "no metricName given" else
      if c.TriggerMetadata.index "metricAggregationType" = "" then
        .error "no metricAggregationType given" else
      if c.TriggerMetadata.index "metricAggregationInterval" ≠ "" ∧
          (Split (c.TriggerMetadata.index "metricAggregationInterval") ':').length ≠ 3 then
        .error "metricAggregationInterval not in the correct format. Should be hh:mm:ss" else
      if c.TriggerMetadata.index "subscriptionId" = "" then .error "no subscriptionId given" else
      if c.TriggerMetadata.index "tenantId" = "" then .error "no tenantId given" else
      match parseAzurePodIdentityParams ext c with
      | .error e => .error e
      | .ok cred =>
      match ext.ParseEnvironmentProperty c.TriggerMetadata "azureResourceManagerEndpoint"
          (fun env => .ok env.ResourceManagerEndpoint) with
      | .error e => .error e
      | .ok rm =>
      match ext.ParseActiveDirectoryEndpoint c.TriggerMetadata with
      | .error e => .error e
      | .ok ad =>
        .ok
          { azureMonitorInfo :=
              { ResourceURI := c.TriggerMetadata.index "resourceURI"
                TenantID := c.TriggerMetadata.index "tenantId"
                SubscriptionID := c.TriggerMetadata.index "subscriptionId"
                ResourceGroupName := c.TriggerMetadata.index "resourceGroupName"
                Name := c.TriggerMetadata.index "metricName"
                Namespace := c.TriggerMetadata.index "metricNamespace"
                Filter := c.TriggerMetadata.index "metricFilter"
                AggregationInterval := c.TriggerMetadata.index "metricAggregationInterval"
                AggregationType := c.TriggerMetadata.index "metricAggregationType"
                ClientID := cred.1
                ClientPassword := cred.2
                AzureResourceManagerEndpoint := rm
                ActiveDirectoryEndpoint := ad }
            targetValue := v
            scalerIndex := c.ScalerIndex } := by
  have hns : ¬ (c.TriggerMetadata "metricNamespace").isSome = true →
      c.TriggerMetadata.index "metricNamespace" = "" :=
    StringMap.index_of_not_isSome _ _
  unfold parseAzureMonitorMetadata
  by_cases hf : c.TriggerMetadata.index "metricFilter" = "" <;>
  by_cases hi : c.TriggerMetadata.index "metricAggregationInterval" = "" <;>
  by_cases hn : (c.TriggerMetadata "metricNamespace").isSome = true <;>
  (try have hn' := hns hn) <;>
  simp only [StringMap.lookup, bind, Except.bind, pure, Except.pure, throw, throwThe,
    MonadExceptOf.throw, targetValueName, azureMonitorMetricName,
    StringMap.getD_eq_index, StringMap.present_iff, bne_iff_ne, ne_eq, ite_not,
    hf, hi, hn, if_true, if_false, true_and, false_and, not_true_eq_false,
    not_false_eq_true, Bool.false_eq_true, bne_self_eq_false, Bool.and_false] <;>
  (try simp only [hn']) <;>
  cases ParseInt (c.TriggerMetadata.index "targetValue") <;>
  cases parseAzurePodIdentityParams ext c <;>
  cases ext.ParseEnvironmentProperty c.TriggerMetadata "azureResourceManagerEndpoint"
          (fun env => .ok env.ResourceManagerEndpoint) <;>
  cases ext.ParseActiveDirectoryEndpoint c.TriggerMetadata <;>
  rfl

/-- The parser succeeds exactly when the field checks pass and the three collaborators
succeed; the descriptor is then `descriptorOf`. -/
theorem parse_ok_iff (ext : Externals) (c : ScalerConfig) (m : azureMonitorMetadata) :
    parseAzureMonitorMetadata ext c = .ok m ↔
      ∃ v cred rm ad, fieldChecks c v ∧
        parseAzurePodIdentityParams ext c = .ok cred ∧
        ext.ParseEnvironmentProperty c.TriggerMetadata "azureResourceManagerEndpoint"
          (fun env => .ok env.ResourceManagerEndpoint) = .ok rm ∧
        ext.ParseActiveDirectoryEndpoint c.TriggerMetadata = .ok ad ∧
        m = descriptorOf c v cred rm ad := by
  constructor
  · intro h
    rw [parseAzureMonitorMetadata_eq] at h
    repeat' split at h
    all_goals (try cases h)
    rename_i h1 _ v hv h2 h3 h4 h5 h6 h7 h8 h9 _ cred hc _ rm hrm _ ad had
    refine ⟨v, cred, rm, ad, ⟨h1, hv, h2, ?_, h4, h5, h6, ?_, h8, h9⟩, hc, hrm, had, rfl⟩
    · exact not_not.1 h3
    · by_cases hi : c.TriggerMetadata.index "metricAggregationInterval" = ""
      · exact Or.inl hi
      · right
        by_contra hlen
        exact h7 ⟨hi, hlen⟩
  · rintro ⟨v, cred, rm, ad, ⟨h1, hv, h2, h3, h4, h5, h6, h7, h8, h9⟩, hc, hrm, had, rfl⟩
    have h7' : ¬ (c.TriggerMetadata.index "metricAggregationInterval" ≠ "" ∧
        (Split (c.TriggerMetadata.index "metricAggregationInterval") ':').length ≠ 3) := by
      rintro ⟨ha, hb⟩
      rcases h7 with h | h
      · exact ha h
      · exact hb h
    rw [parseAzureMonitorMetadata_eq]
    simp only [if_neg h1, hv, if_neg h2, h3, ne_eq, not_true_eq_false, if_false, if_neg h4,
      if_neg h5, if_neg h6, if_neg h7', if_neg h8, if_neg h9, hc, hrm, had, descriptorOf]

/-- A result of the parser is a descriptor or an error. -/
theorem parse_error_of_not_ok (ext : Externals) (c : ScalerConfig)
    (h : ∀ m, parseAzureMonitorMetadata ext c ≠ .ok m) :
    ∃ e, parseAzureMonitorMetadata ext c = .error e := by
  rcases hr : parseAzureMonitorMetadata ext c with e | m
  · exact ⟨e, rfl⟩
  · exact absurd hr (h m)

/-! ## Replacing one key of `triggerMetadata` -/

theorem index_withTrigger_same (c : ScalerConfig) (k v : String) :
    (c.withTrigger k v).TriggerMetadata.index k = v :=
  StringMap.index_set_same _ _ _

theorem index_withTrigger_other (c : ScalerConfig) (k k' v : String) (h : k' ≠ k) :
    (c.withTrigger k v).TriggerMetadata.index k' = c.TriggerMetadata.index k' :=
  StringMap.index_set_other _ _ _ _ h

/-- The credentials depend on `triggerMetadata` only through the client id and the key
`activeDirectoryClientPasswordFromEnv`. -/
theorem podIdentity_withTrigger (ext : Externals) (c : ScalerConfig) (k v : String)
    (hk : "activeDirectoryClientPasswordFromEnv" ≠ k)
    (hid : ext.getParameterFromConfig (c.withTrigger k v) "activeDirectoryClientId" true
      = ext.getParameterFromConfig c "activeDirectoryClientId" true) :
    parseAzurePodIdentityParams ext (c.withTrigger k v) = parseAzurePodIdentityParams ext c := by
  unfold parseAzurePodIdentityParams
  rw [hid, index_withTrigger_other c k _ v hk]
  rfl

/-- What a successful credential step returns in each authentication mode. -/
theorem podIdentity_ok (ext : Externals) (c : ScalerConfig) (cred : String × String)
    (h : parseAzurePodIdentityParams ext c = .ok cred) :
    ((c.PodIdentity = "" ∨ c.PodIdentity = PodIdentityProviderNone) →
      cred.1 ≠ "" ∧ cred.2 ≠ "") ∧
    ((c.PodIdentity = PodIdentityProviderAzure ∨
        c.PodIdentity = PodIdentityProviderAzureWorkload) → cred.1 = "" ∧ cred.2 = "") := by
  unfold parseAzurePodIdentityParams at h
  by_cases hmode : c.PodIdentity = "" ∨ c.PodIdentity = PodIdentityProviderNone
  · rw [if_pos hmode] at h
    refine ⟨fun _ => ?_, fun hamb => ?_⟩
    · rcases hg : ext.getParameterFromConfig c "activeDirectoryClientId" true with e | id
      · rw [hg] at h
        cases h
      · rw [hg] at h
        simp only at h
        split_ifs at h
        all_goals
          simp only [Except.ok.injEq] at h
          subst h
          rename_i hlen
          exact ⟨‹¬ id = ""›, fun hpw => hlen (congrArg String.length hpw)⟩
    · exfalso
      rcases hmode with h0 | h0 <;> rcases hamb with h1 | h1 <;>
        · rw [h0] at h1
          revert h1
          decide
  · rw [if_neg hmode] at h
    refine ⟨fun hm => absurd hm hmode, fun _ => ?_⟩
    split_ifs at h
    simp only [Except.ok.injEq] at h
    subst h
    exact ⟨rfl, rfl⟩

/-! ## Properties of `parseAzureMonitorMetadata` -/

/-- C1: when one of the seven required keys is absent from `triggerMetadata` or maps to the
empty string, `parseAzureMonitorMetadata` returns an error and no descriptor, whatever the
rest of the configuration and the collaborators are. -/
theorem missing_required_key_is_error (ext : Externals) (c : ScalerConfig) (k : String)
    (hk : k ∈ requiredKeys)
    (h : c.TriggerMetadata k = none ∨ c.TriggerMetadata k = some "") :
    ∃ e, parseAzureMonitorMetadata ext c = .error e := by
  have hidx : c.TriggerMetadata.index k = "" := (StringMap.index_eq_empty_iff _ _).2 h
  apply parse_error_of_not_ok
  intro m hm
  obtain ⟨v, cred, rm, ad, ⟨h1, _, h2, _, h3, h4, h5, _, h6, h7⟩, _⟩ :=
    (parse_ok_iff ext c m).1 hm
  simp only [requiredKeys, List.mem_cons, List.mem_singleton, List.not_mem_nil, or_false] at hk
  rcases hk with rfl | rfl | rfl | rfl | rfl | rfl | rfl
  · exact h1 hidx
  · exact h2 hidx
  · exact h3 hidx
  · exact h4 hidx
  · exact h5 hidx
  · exact h6 hidx
  · exact h7 hidx

/-- Witness of C1: the empty configuration, where `tenantId` is absent. -/
theorem missing_required_key_is_error_witness :
    "tenantId" ∈ requiredKeys ∧
    (nothingPassed.TriggerMetadata "tenantId" = none ∨
      nothingPassed.TriggerMetadata "tenantId" = some "") ∧
    ∃ e, parseAzureMonitorMetadata modelExternals nothingPassed = .error e :=
  ⟨by decide, Or.inl rfl,
    missing_required_key_is_error modelExternals nothingPassed "tenantId" (by decide)
      (Or.inl rfl)⟩

/-- C2, as stated, fails: in the empty configuration `tenantId` is missing, yet the error
is the one of the first check, "no targetValue given", not "no tenantId given". -/
theorem missing_key_named_counterexample :
    nothingPassed.TriggerMetadata "tenantId" = none ∧
    parseAzureMonitorMetadata modelExternals nothingPassed = .error "no targetValue given" ∧
    parseAzureMonitorMetadata modelExternals nothingPassed ≠ .error "no tenantId given" :=
  ⟨rfl, rfl, fun h => by
    have h' : (Except.error "no targetValue given" : Except String azureMonitorMetadata)
        = Except.error "no tenantId given" := h
    simp at h'⟩

/-- C2, amended: when a required key `k` is absent or empty and every check made before the
lookup of `k` passes, `parseAzureMonitorMetadata` fails with "no k given". -/
theorem first_missing_key_is_named (ext : Externals) (c : ScalerConfig) (k : String)
    (hk : k ∈ requiredKeys)
    (h : c.TriggerMetadata k = none ∨ c.TriggerMetadata k = some "")
    (hbefore : passesChecksBefore c k) :
    parseAzureMonitorMetadata ext c = .error ("no " ++ k ++ " given") := by
  have hidx : c.TriggerMetadata.index k = "" := (StringMap.index_eq_empty_iff _ _).2 h
  obtain ⟨hkeys, hint, huri, hival⟩ := hbefore
  rw [parseAzureMonitorMetadata_eq]
  simp only [requiredKeys, List.mem_cons, List.mem_singleton, List.not_mem_nil, or_false] at hk
  rcases hk with rfl | rfl | rfl | rfl | rfl | rfl | rfl
  · rw [if_pos hidx]
    rfl
  all_goals
    obtain ⟨v, hv⟩ := hint (by decide)
    have hkeys' : ∀ k', k' ∈ requiredKeys.takeWhile (fun k' => k' != _) →
        ¬ c.TriggerMetadata.index k' = "" := hkeys
    simp only [requiredKeys, List.takeWhile, bne_iff_ne, ne_eq, String.reduceEq,
      not_false_eq_true, not_true_eq_false, decide_True, decide_False, List.mem_cons,
      List.mem_singleton, List.not_mem_nil, or_false, forall_eq_or_imp, forall_eq,
      imp_false, String.reduceBNe] at hkeys'
  · simp only [hv, hkeys', hidx, if_true, if_false]
    rfl
  all_goals
    have huri' := huri (by decide) (by decide)
  · simp only [hv, hkeys', hidx, huri', ne_eq, not_true_eq_false, if_true, if_false]
    rfl
  · simp only [hv, hkeys', hidx, huri', ne_eq, not_true_eq_false, if_true, if_false]
    rfl
  · simp only [hv, hkeys', hidx, huri', ne_eq, not_true_eq_false, if_true, if_false]
    rfl
  all_goals
    have hival' : ¬ (c.TriggerMetadata.index "metricAggregationInterval" ≠ "" ∧
        (Split (c.TriggerMetadata.index "metricAggregationInterval") ':').length ≠ 3) := by
      rintro ⟨ha, hb⟩
      rcases hival (by decide) with h' | h'
      · exact ha h'
      · exact hb h'
  · simp only [hv, hkeys', hidx, huri', ne_eq, not_true_eq_false, if_true, if_false,
      if_neg hival']
    rfl
  · simp only [hv, hkeys', hidx, huri', ne_eq, not_true_eq_false, if_true, if_false,
      if_neg hival']
    rfl

/-- Witness of the amended C2: row "missing tenantId" of the test table. -/
theorem first_missing_key_is_named_witness :
    "tenantId" ∈ requiredKeys ∧
    (missingTenantId.TriggerMetadata "tenantId" = none ∨
      missingTenantId.TriggerMetadata "tenantId" = some "") ∧
    passesChecksBefore missingTenantId "tenantId" ∧
    parseAzureMonitorMetadata modelExternals missingTenantId = .error "no tenantId given" :=
  have hb : passesChecksBefore missingTenantId "tenantId" :=
    ⟨by decide, fun _ => ⟨5, by rfl⟩, fun _ _ => by decide, fun _ => Or.inr (by decide)⟩
  ⟨by decide, Or.inl rfl, hb,
    first_missing_key_is_named modelExternals missingTenantId "tenantId" (by decide)
      (Or.inl rfl) hb⟩

/-- C3: every descriptor that `parseAzureMonitorMetadata` returns is valid: `ResourceURI` is
non-empty and has exactly 3 segments; `ResourceGroupName`, `Name`, `AggregationType`,
`SubscriptionID` and `TenantID` are non-empty; `AggregationInterval` is empty or has exactly
3 segments; the credentials are both non-empty in explicit mode (pod identity `""` or
`"none"`) and both empty for the two Azure ambient-identity providers. -/
theorem parsed_descriptor_is_valid (ext : Externals) (c : ScalerConfig)
    (m : azureMonitorMetadata) (h : parseAzureMonitorMetadata ext c = .ok m) :
    m.azureMonitorInfo.ResourceURI ≠ "" ∧
    (Split m.azureMonitorInfo.ResourceURI '/').length = 3 ∧
    m.azureMonitorInfo.ResourceGroupName ≠ "" ∧
    m.azureMonitorInfo.Name ≠ "" ∧
    m.azureMonitorInfo.AggregationType ≠ "" ∧
    m.azureMonitorInfo.SubscriptionID ≠ "" ∧
    m.azureMonitorInfo.TenantID ≠ "" ∧
    (m.azureMonitorInfo.AggregationInterval = "" ∨
      (Split m.azureMonitorInfo.AggregationInterval ':').length = 3) ∧
    ((c.PodIdentity = "" ∨ c.PodIdentity = PodIdentityProviderNone) →
      m.azureMonitorInfo.ClientID ≠ "" ∧ m.azureMonitorInfo.ClientPassword ≠ "") ∧
    ((c.PodIdentity = PodIdentityProviderAzure ∨
        c.PodIdentity = PodIdentityProviderAzureWorkload) →
      m.azureMonitorInfo.ClientID = "" ∧ m.azureMonitorInfo.ClientPassword = "") := by
  obtain ⟨v, cred, rm, ad, ⟨_, _, h2, h3, h4, h5, h6, h7, h8, h9⟩, hc, _, _, rfl⟩ :=
    (parse_ok_iff ext c m).1 h
  obtain ⟨hexp, hamb⟩ := podIdentity_ok ext c cred hc
  exact ⟨h2, h3, h4, h5, h6, h8, h9, h7, hexp, hamb⟩

/-- Witness of C3: row "properly formed" of the test table. -/
theorem parsed_descriptor_is_valid_witness :
    parseAzureMonitorMetadata modelExternals properlyFormed = .ok properlyFormedMeta ∧
    properlyFormedMeta.azureMonitorInfo.ResourceURI ≠ "" ∧
    (Split properlyFormedMeta.azureMonitorInfo.ResourceURI '/').length = 3 ∧
    properlyFormedMeta.azureMonitorInfo.ClientID ≠ "" ∧
    properlyFormedMeta.azureMonitorInfo.ClientPassword ≠ "" :=
  have h := parsed_descriptor_is_valid modelExternals properlyFormed properlyFormedMeta rfl
  ⟨rfl, h.1, h.2.1, (h.2.2.2.2.2.2.2.2.1 (Or.inl rfl)).1, (h.2.2.2.2.2.2.2.2.1 (Or.inl rfl)).2⟩

/-- C4: on success the descriptor's `ResourceURI`, `ResourceGroupName`, `Name`,
`AggregationType`, `Filter`, `AggregationInterval`, `SubscriptionID`, `TenantID` and
`Namespace` are the values of the corresponding keys of `triggerMetadata` (the empty string
for an absent key), and its `scalerIndex` is `config.ScalerIndex`. -/
theorem parsed_descriptor_copies_config (ext : Externals) (c : ScalerConfig)
    (m : azureMonitorMetadata) (h : parseAzureMonitorMetadata ext c = .ok m) :
    m.azureMonitorInfo.ResourceURI = c.TriggerMetadata.index "resourceURI" ∧
    m.azureMonitorInfo.ResourceGroupName = c.TriggerMetadata.index "resourceGroupName" ∧
    m.azureMonitorInfo.Name = c.TriggerMetadata.index "metricName" ∧
    m.azureMonitorInfo.AggregationType = c.TriggerMetadata.index "metricAggregationType" ∧
    m.azureMonitorInfo.Filter = c.TriggerMetadata.index "metricFilter" ∧
    m.azureMonitorInfo.AggregationInterval
      = c.TriggerMetadata.index "metricAggregationInterval" ∧
    m.azureMonitorInfo.SubscriptionID = c.TriggerMetadata.index "subscriptionId" ∧
    m.azureMonitorInfo.TenantID = c.TriggerMetadata.index "tenantId" ∧
    m.azureMonitorInfo.Namespace = c.TriggerMetadata.index "metricNamespace" ∧
    m.scalerIndex = c.ScalerIndex := by
  obtain ⟨v, cred, rm, ad, _, _, _, _, rfl⟩ := (parse_ok_iff ext c m).1 h
  exact ⟨rfl, rfl, rfl, rfl, rfl, rfl, rfl, rfl, rfl, rfl⟩

/-- Witness of C4: row "properly formed" of the test table, which has no `metricFilter`. -/
theorem parsed_descriptor_copies_config_witness :
    parseAzureMonitorMetadata modelExternals properlyFormed = .ok properlyFormedMeta ∧
    properlyFormedMeta.azureMonitorInfo.ResourceURI = "test/resource/uri" ∧
    properlyFormedMeta.azureMonitorInfo.Filter
      = properlyFormed.TriggerMetadata.index "metricFilter" ∧
    properlyFormedMeta.scalerIndex = properlyFormed.ScalerIndex :=
  have h := parsed_descriptor_copies_config modelExternals properlyFormed properlyFormedMeta rfl
  ⟨rfl, h.1, h.2.2.2.2.1, h.2.2.2.2.2.2.2.2.2⟩

/-- The field checks other than those of `targetValue` are untouched when `targetValue` is
replaced. -/
theorem fieldChecks_withTargetValue (c : ScalerConfig) (v w : Int) (s : String)
    (h : fieldChecks c v) (hs : s ≠ "") (hp : ParseInt s = .ok w) :
    fieldChecks (c.withTrigger "targetValue" s) w := by
  obtain ⟨_, _, h2, h3, h4, h5, h6, h7, h8, h9⟩ := h
  unfold fieldChecks
  rw [index_withTrigger_same,
    index_withTrigger_other c "targetValue" "resourceURI" s (by decide),
    index_withTrigger_other c "targetValue" "resourceGroupName" s (by decide),
    index_withTrigger_other c "targetValue" "metricName" s (by decide),
    index_withTrigger_other c "targetValue" "metricAggregationType" s (by decide),
    index_withTrigger_other c "targetValue" "metricAggregationInterval" s (by decide),
    index_withTrigger_other c "targetValue" "subscriptionId" s (by decide),
    index_withTrigger_other c "targetValue" "tenantId" s (by decide)]
  exact ⟨hs, hp, h2, h3, h4, h5, h6, h7, h8, h9⟩

/-- The field checks other than those of `resourceURI` are untouched when `resourceURI` is
replaced. -/
theorem fieldChecks_withResourceURI (c : ScalerConfig) (v : Int) (s : String)
    (h : fieldChecks c v) (hs : s ≠ "") (hlen : (Split s '/').length = 3) :
    fieldChecks (c.withTrigger "resourceURI" s) v := by
  obtain ⟨h1, hv, _, _, h4, h5, h6, h7, h8, h9⟩ := h
  unfold fieldChecks
  rw [index_withTrigger_same,
    index_withTrigger_other c "resourceURI" "targetValue" s (by decide),
    index_withTrigger_other c "resourceURI" "resourceGroupName" s (by decide),
    index_withTrigger_other c "resourceURI" "metricName" s (by decide),
    index_withTrigger_other c "resourceURI" "metricAggregationType" s (by decide),
    index_withTrigger_other c "resourceURI" "metricAggregationInterval" s (by decide),
    index_withTrigger_other c "resourceURI" "subscriptionId" s (by decide),
    index_withTrigger_other c "resourceURI" "tenantId" s (by decide)]
  exact ⟨h1, hv, hs, hlen, h4, h5, h6, h7, h8, h9⟩

/-- C5: if `parseAzureMonitorMetadata` accepts `c` and `n` is a signed 64-bit integer, it
also accepts `c` with `targetValue` replaced by the decimal representation of `n`, and
returns the same descriptor except that `targetValue` is `n`. The collaborators are assumed
not to answer differently because of the key `targetValue`. -/
theorem targetValue_decimal_roundtrip (ext : Externals) (c : ScalerConfig)
    (m : azureMonitorMetadata) (n : Int) (hlo : -2 ^ 63 ≤ n) (hhi : n < 2 ^ 63)
    (h : parseAzureMonitorMetadata ext c = .ok m)
    (hext : ext.agreeOn c (c.withTrigger "targetValue" (toString n))) :
    parseAzureMonitorMetadata ext (c.withTrigger "targetValue" (toString n))
      = .ok { m with targetValue := n } := by
  obtain ⟨v, cred, rm, ad, hf, hc, hrm, had, rfl⟩ := (parse_ok_iff ext c m).1 h
  obtain ⟨hid, hrm', had'⟩ := hext
  have hlit := int64Literal_toString n hlo hhi
  have hne : toString n ≠ "" := by
    intro he
    rw [he] at hlit
    have hnone : int64Literal "" = none := by decide
    rw [hnone] at hlit
    cases hlit
  refine (parse_ok_iff ext _ _).2 ⟨n, cred, rm, ad,
    fieldChecks_withTargetValue c v n _ hf hne (ParseInt_of_literal _ _ hlit), ?_, ?_, ?_, ?_⟩
  · rw [podIdentity_withTrigger ext c _ _ (by decide) hid, hc]
  · rw [hrm', hrm]
  · rw [had', had]
  · simp only [descriptorOf]
    rw [index_withTrigger_other c "targetValue" "resourceURI" _ (by decide),
      index_withTrigger_other c "targetValue" "resourceGroupName" _ (by decide),
      index_withTrigger_other c "targetValue" "metricName" _ (by decide),
      index_withTrigger_other c "targetValue" "metricAggregationType" _ (by decide),
      index_withTrigger_other c "targetValue" "metricAggregationInterval" _ (by decide),
      index_withTrigger_other c "targetValue" "subscriptionId" _ (by decide),
      index_withTrigger_other c "targetValue" "tenantId" _ (by decide),
      index_withTrigger_other c "targetValue" "metricNamespace" _ (by decide),
      index_withTrigger_other c "targetValue" "metricFilter" _ (by decide)]
    rfl

/-- Witness of C5: row "properly formed" with `targetValue` replaced by the representation
of `-7`. -/
theorem targetValue_decimal_roundtrip_witness :
    (-2 ^ 63 ≤ (-7 : Int) ∧ (-7 : Int) < 2 ^ 63) ∧
    parseAzureMonitorMetadata modelExternals properlyFormed = .ok properlyFormedMeta ∧
    modelExternals.agreeOn properlyFormed
      (properlyFormed.withTrigger "targetValue" (toString (-7 : Int))) ∧
    parseAzureMonitorMetadata modelExternals
        (properlyFormed.withTrigger "targetValue" (toString (-7 : Int)))
      = .ok { properlyFormedMeta with targetValue := -7 } :=
  ⟨⟨by decide, by decide⟩, rfl, ⟨rfl, rfl, rfl⟩,
    targetValue_decimal_roundtrip modelExternals properlyFormed properlyFormedMeta (-7)
      (by decide) (by decide) rfl ⟨rfl, rfl, rfl⟩⟩

/-- C6: when `targetValue` is non-empty but is not a base-10 literal of a signed 64-bit
integer, `parseAzureMonitorMetadata` returns no descriptor and the error of the
`targetValue` check, whose message names `targetValue` and wraps the `strconv.ParseInt`
error (invalid syntax or value out of range), whatever the other inputs are. -/
theorem targetValue_not_literal_is_error (ext : Externals) (c : ScalerConfig)
    (hne : c.TriggerMetadata.index "targetValue" ≠ "")
    (hlit : int64Literal (c.TriggerMetadata.index "targetValue") = none) :
    ∃ kind : NumErrKind,
      parseAzureMonitorMetadata ext c =
        .error ("error parsing azure monitor metadata targetValue: strconv.ParseInt: parsing "
          ++ ext.Quote (c.TriggerMetadata.index "targetValue") ++ ": " ++ kind.text) := by
  obtain ⟨kind, hk⟩ := ParseInt_of_not_literal _ hlit
  refine ⟨kind, ?_⟩
  rw [parseAzureMonitorMetadata_eq, if_neg hne, hk]
  simp only [NumError.Error, targetValueName, String.append_assoc]
  rfl

/-- Witness of C6: row "properly formed" with the out-of-range value `2^63`. -/
theorem targetValue_not_literal_is_error_witness :
    (properlyFormed.withTrigger "targetValue" "9223372036854775808").TriggerMetadata.index
      "targetValue" ≠ "" ∧
    int64Literal ((properlyFormed.withTrigger "targetValue"
      "9223372036854775808").TriggerMetadata.index "targetValue") = none ∧
    ∃ kind : NumErrKind,
      parseAzureMonitorMetadata modelExternals
          (properlyFormed.withTrigger "targetValue" "9223372036854775808") =
        .error ("error parsing azure monitor metadata targetValue: strconv.ParseInt: parsing "
          ++ modelExternals.Quote ((properlyFormed.withTrigger "targetValue"
            "9223372036854775808").TriggerMetadata.index "targetValue")
          ++ ": " ++ kind.text) :=
  ⟨by decide, by decide,
    targetValue_not_literal_is_error modelExternals
      (properlyFormed.withTrigger "targetValue" "9223372036854775808") (by decide)
      (by decide)⟩

/-- C7, as stated, fails: the empty string splits on `/` into 1 segment, not 3, but replacing
`resourceURI` by it in row "properly formed" gives the missing-field error "no resourceURI
given", not the malformed-resourceURI error. -/
theorem resourceURI_empty_counterexample :
    parseAzureMonitorMetadata modelExternals properlyFormed = .ok properlyFormedMeta ∧
    (Split "" '/').length = 1 ∧
    parseAzureMonitorMetadata modelExternals (properlyFormed.withTrigger "resourceURI" "")
      = .error "no resourceURI given" ∧
    parseAzureMonitorMetadata modelExternals (properlyFormed.withTrigger "resourceURI" "")
      ≠ .error
        "resourceURI not in the correct format. Should be namespace/resource_type/resource_name" :=
  ⟨rfl, rfl, rfl, fun h => by
    have h' : (Except.error "no resourceURI given" : Except String azureMonitorMetadata)
        = Except.error
          "resourceURI not in the correct format. Should be namespace/resource_type/resource_name" :=
      h
    simp at h'⟩

/-- C7, amended: if `parseAzureMonitorMetadata` accepts `c`, then replacing `resourceURI` by
a non-empty string whose split on `/` does not have 3 segments makes it fail with the
malformed-resourceURI error. -/
theorem resourceURI_malformed_is_error (ext : Externals) (c : ScalerConfig)
    (m : azureMonitorMetadata) (s : String)
    (h : parseAzureMonitorMetadata ext c = .ok m) (hs : s ≠ "")
    (hlen : (Split s '/').length ≠ 3) :
    parseAzureMonitorMetadata ext (c.withTrigger "resourceURI" s) = .error
      "resourceURI not in the correct format. Should be namespace/resource_type/resource_name" := by
  obtain ⟨v, cred, rm, ad, ⟨h1, hv, _⟩, _⟩ := (parse_ok_iff ext c m).1 h
  rw [parseAzureMonitorMetadata_eq, index_withTrigger_same,
    index_withTrigger_other c "resourceURI" "targetValue" s (by decide), if_neg h1, hv]
  simp only [if_neg hs, if_pos hlen]

/-- Witness of the amended C7: row "incorrectly formatted resourceURI" of the test table,
obtained from row "properly formed". -/
theorem resourceURI_malformed_is_error_witness :
    parseAzureMonitorMetadata modelExternals properlyFormed = .ok properlyFormedMeta ∧
    "bad/format" ≠ "" ∧ (Split "bad/format" '/').length ≠ 3 ∧
    parseAzureMonitorMetadata modelExternals
        (properlyFormed.withTrigger "resourceURI" "bad/format") = .error
      "resourceURI not in the correct format. Should be namespace/resource_type/resource_name" :=
  ⟨rfl, by decide, by decide,
    resourceURI_malformed_is_error modelExternals properlyFormed properlyFormedMeta
      "bad/format" rfl (by decide) (by decide)⟩

/-- C8: if `parseAzureMonitorMetadata` accepts `c`, it also accepts `c` with `resourceURI`
replaced by any string that contains exactly two `/` characters, whatever the three segments
are, and the descriptor is the same except that its `ResourceURI` is that string. The
collaborators are assumed not to answer differently because of the key `resourceURI`. -/
theorem resourceURI_two_slashes_accepted (ext : Externals) (c : ScalerConfig)
    (m : azureMonitorMetadata) (s : String)
    (h : parseAzureMonitorMetadata ext c = .ok m) (hs : s.data.count '/' = 2)
    (hext : ext.agreeOn c (c.withTrigger "resourceURI" s)) :
    parseAzureMonitorMetadata ext (c.withTrigger "resourceURI" s)
      = .ok { m with azureMonitorInfo := { m.azureMonitorInfo with ResourceURI := s } } := by
  obtain ⟨v, cred, rm, ad, hf, hc, hrm, had, rfl⟩ := (parse_ok_iff ext c m).1 h
  obtain ⟨hid, hrm', had'⟩ := hext
  have hne : s ≠ "" := by
    intro he
    rw [he] at hs
    revert hs
    decide
  have hlen : (Split s '/').length = 3 := by rw [Split_length, hs]
  refine (parse_ok_iff ext _ _).2 ⟨v, cred, rm, ad,
    fieldChecks_withResourceURI c v s hf hne hlen, ?_, ?_, ?_, ?_⟩
  · rw [podIdentity_withTrigger ext c _ _ (by decide) hid, hc]
  · rw [hrm', hrm]
  · rw [had', had]
  · simp only [descriptorOf]
    rw [index_withTrigger_same,
      index_withTrigger_other c "resourceURI" "resourceGroupName" _ (by decide),
      index_withTrigger_other c "resourceURI" "metricName" _ (by decide),
      index_withTrigger_other c "resourceURI" "metricAggregationType" _ (by decide),
      index_withTrigger_other c "resourceURI" "metricAggregationInterval" _ (by decide),
      index_withTrigger_other c "resourceURI" "subscriptionId" _ (by decide),
      index_withTrigger_other c "resourceURI" "tenantId" _ (by decide),
      index_withTrigger_other c "resourceURI" "metricNamespace" _ (by decide),
      index_withTrigger_other c "resourceURI" "metricFilter" _ (by decide)]
    rfl

/-- Witness of C8: row "properly formed" with `resourceURI` replaced by `"//"`, three empty
segments. -/
theorem resourceURI_two_slashes_accepted_witness :
    parseAzureMonitorMetadata modelExternals properlyFormed = .ok properlyFormedMeta ∧
    "//".data.count '/' = 2 ∧
    modelExternals.agreeOn properlyFormed (properlyFormed.withTrigger "resourceURI" "//") ∧
    parseAzureMonitorMetadata modelExternals (properlyFormed.withTrigger "resourceURI" "//")
      = .ok { properlyFormedMeta with
          azureMonitorInfo := { properlyFormedMeta.azureMonitorInfo with ResourceURI := "//" } } :=
  ⟨rfl, by decide, ⟨rfl, rfl, rfl⟩,
    resourceURI_two_slashes_accepted modelExternals properlyFormed properlyFormedMeta "//" rfl
      (by decide) ⟨rfl, rfl, rfl⟩⟩

/-- C9, as stated, fails: row "properly formed" with `metricAggregationInterval` present but
empty, a value whose split on `:` has 1 segment, is accepted, with an empty
`AggregationInterval`. -/
theorem aggregationInterval_empty_counterexample :
    (properlyFormed.withTrigger "metricAggregationInterval" "").TriggerMetadata
      "metricAggregationInterval" = some "" ∧
    (Split "" ':').length = 1 ∧
    parseAzureMonitorMetadata modelExternals
        (properlyFormed.withTrigger "metricAggregationInterval" "")
      = .ok { properlyFormedMeta with
          azureMonitorInfo :=
            { properlyFormedMeta.azureMonitorInfo with AggregationInterval := "" } } :=
  ⟨rfl, rfl, rfl⟩

/-- C9, amended: when `triggerMetadata` contains the key `metricAggregationInterval` with a
non-empty value whose split on `:` does not have exactly 3 segments,
`parseAzureMonitorMetadata` fails: it returns an error and no descriptor. -/
theorem aggregationInterval_malformed_is_error (ext : Externals) (c : ScalerConfig)
    (s : String) (hk : c.TriggerMetadata "metricAggregationInterval" = some s)
    (hs : s ≠ "") (hlen : (Split s ':').length ≠ 3) :
    ∃ e, parseAzureMonitorMetadata ext c = .error e := by
  have hidx : c.TriggerMetadata.index "metricAggregationInterval" = s := by
    simp [StringMap.index, hk]
  apply parse_error_of_not_ok
  intro m hm
  obtain ⟨v, cred, rm, ad, ⟨_, _, _, _, _, _, _, h7, _⟩, _⟩ := (parse_ok_iff ext c m).1 hm
  rw [hidx] at h7
  rcases h7 with h7 | h7
  · exact hs h7
  · exact hlen h7

/-- Witness of the amended C9: row "improperly formatted aggregationInterval" of the test
table. -/
theorem aggregationInterval_malformed_is_error_witness :
    (properlyFormed.withTrigger "metricAggregationInterval" "0:1").TriggerMetadata
      "metricAggregationInterval" = some "0:1" ∧
    "0:1" ≠ "" ∧ (Split "0:1" ':').length ≠ 3 ∧
    ∃ e, parseAzureMonitorMetadata modelExternals
      (properlyFormed.withTrigger "metricAggregationInterval" "0:1") = .error e :=
  ⟨rfl, by decide, by decide,
    aggregationInterval_malformed_is_error modelExternals
      (properlyFormed.withTrigger "metricAggregationInterval" "0:1") "0:1" rfl (by decide)
      (by decide)⟩

/-- C10: in explicit authentication mode, once a non-empty client id is resolved, a
non-empty `authParams["activeDirectoryClientPassword"]` is returned as the client password,
whatever `activeDirectoryClientPasswordFromEnv` and `resolvedEnv` contain. -/
theorem authParams_password_is_preferred (ext : Externals) (c : ScalerConfig) (id : String)
    (hmode : c.PodIdentity = "" ∨ c.PodIdentity = PodIdentityProviderNone)
    (hid : ext.getParameterFromConfig c "activeDirectoryClientId" true = .ok id)
    (hne : id ≠ "")
    (hpw : c.AuthParams.index "activeDirectoryClientPassword" ≠ "") :
    parseAzurePodIdentityParams ext c
      = .ok (id, c.AuthParams.index "activeDirectoryClientPassword") := by
  have hlen : ¬ (c.AuthParams.index "activeDirectoryClientPassword").length = 0 := by
    intro h0
    apply hpw
    have : (c.AuthParams.index "activeDirectoryClientPassword").data = [] :=
      List.length_eq_zero.1 h0
    exact String.ext this
  unfold parseAzurePodIdentityParams
  rw [if_pos hmode, hid]
  simp only [if_neg hne, if_pos hpw, if_neg hlen]

/-- Witness of C10: a password in `authParams` ("password") and a different one reachable
through `activeDirectoryClientPasswordFromEnv` ("yyy"). -/
theorem authParams_password_is_preferred_witness :
    (bothSecrets.PodIdentity = "" ∨ bothSecrets.PodIdentity = PodIdentityProviderNone) ∧
    modelExternals.getParameterFromConfig bothSecrets "activeDirectoryClientId" true
      = .ok "CLIENT_ID" ∧
    bothSecrets.ResolvedEnv.index
      (bothSecrets.TriggerMetadata.index "activeDirectoryClientPasswordFromEnv") = "yyy" ∧
    parseAzurePodIdentityParams modelExternals bothSecrets = .ok ("CLIENT_ID", "password") :=
  ⟨Or.inl rfl, rfl, rfl,
    authParams_password_is_preferred modelExternals bothSecrets "CLIENT_ID" (Or.inl rfl) rfl
      (by decide) (by decide)⟩

/-! ## Properties of `parseAzurePodIdentityParams` -/

theorem String.length_eq_zero_iff_empty (s : String) : s.length = 0 ↔ s = "" := by
  constructor
  · intro h
    exact String.ext (List.length_eq_zero.1 h)
  · intro h
    rw [h]
    rfl

/-- The credential step in explicit mode, once a non-empty client id is resolved: the
password of `authParams` if it is non-empty, else the one that
`activeDirectoryClientPasswordFromEnv` leads to in `resolvedEnv`, else an error. -/
theorem podIdentity_explicit (ext : Externals) (c : ScalerConfig) (id : String)
    (hmode : c.PodIdentity = "" ∨ c.PodIdentity = PodIdentityProviderNone)
    (hid : ext.getParameterFromConfig c "activeDirectoryClientId" true = .ok id)
    (hne : id ≠ "") :
    parseAzurePodIdentityParams ext c =
      if c.AuthParams.index "activeDirectoryClientPassword" ≠ "" then
        .ok (id, c.AuthParams.index "activeDirectoryClientPassword")
      else if c.TriggerMetadata.index "activeDirectoryClientPasswordFromEnv" ≠ "" ∧
          c.ResolvedEnv.index
            (c.TriggerMetadata.index "activeDirectoryClientPasswordFromEnv") ≠ "" then
        .ok (id, c.ResolvedEnv.index
          (c.TriggerMetadata.index "activeDirectoryClientPasswordFromEnv"))
      else .error "no activeDirectoryClientPassword given" := by
  unfold parseAzurePodIdentityParams
  rw [if_pos hmode, hid]
  simp only [if_neg hne]
  by_cases ha : c.AuthParams.index "activeDirectoryClientPassword" = ""
  · by_cases hf : c.TriggerMetadata.index "activeDirectoryClientPasswordFromEnv" = ""
    · simp [ha, hf]
    · by_cases hr : c.ResolvedEnv.index
          (c.TriggerMetadata.index "activeDirectoryClientPasswordFromEnv") = ""
      · simp [ha, hf, hr]
      · have hl := mt (String.length_eq_zero_iff_empty _).1 hr
        simp [ha, hf, hr, hl]
  · have hl := mt (String.length_eq_zero_iff_empty _).1 ha
    simp [ha, hl]

/-- C11: in explicit authentication mode with a non-empty client id resolved,
`parseAzurePodIdentityParams` fails with "no activeDirectoryClientPassword given" if and only
if `authParams["activeDirectoryClientPassword"]` is absent or empty and the env-indirected
secret is absent or empty; otherwise it returns the first non-empty of the two. The key
`triggerMetadata["activeDirectoryClientPassword"]` plays no part. -/
theorem password_error_iff_no_secret (ext : Externals) (c : ScalerConfig) (id : String)
    (hmode : c.PodIdentity = "" ∨ c.PodIdentity = PodIdentityProviderNone)
    (hid : ext.getParameterFromConfig c "activeDirectoryClientId" true = .ok id)
    (hne : id ≠ "") :
    (parseAzurePodIdentityParams ext c = .error "no activeDirectoryClientPassword given" ↔
      c.AuthParams.index "activeDirectoryClientPassword" = "" ∧
      (c.TriggerMetadata.index "activeDirectoryClientPasswordFromEnv" = "" ∨
        c.ResolvedEnv.index
          (c.TriggerMetadata.index "activeDirectoryClientPasswordFromEnv") = "")) ∧
    (c.AuthParams.index "activeDirectoryClientPassword" ≠ "" →
      parseAzurePodIdentityParams ext c
        = .ok (id, c.AuthParams.index "activeDirectoryClientPassword")) ∧
    (c.AuthParams.index "activeDirectoryClientPassword" = "" →
      c.TriggerMetadata.index "activeDirectoryClientPasswordFromEnv" ≠ "" →
      c.ResolvedEnv.index
        (c.TriggerMetadata.index "activeDirectoryClientPasswordFromEnv") ≠ "" →
      parseAzurePodIdentityParams ext c
        = .ok (id, c.ResolvedEnv.index
            (c.TriggerMetadata.index "activeDirectoryClientPasswordFromEnv"))) := by
  rw [podIdentity_explicit ext c id hmode hid hne]
  refine ⟨?_, ?_, ?_⟩
  · by_cases ha : c.AuthParams.index "activeDirectoryClientPassword" = ""
    · by_cases hf : c.TriggerMetadata.index "activeDirectoryClientPasswordFromEnv" = ""
      · simp [ha, hf]
      · by_cases hr : c.ResolvedEnv.index
            (c.TriggerMetadata.index "activeDirectoryClientPasswordFromEnv") = ""
        · simp [ha, hf, hr]
        · simp [ha, hf, hr]
    · simp [ha]
  · intro ha
    rw [if_pos ha]
  · intro ha hf hr
    rw [if_neg (not_not.2 ha), if_pos ⟨hf, hr⟩]

/-- Witness of C11: a password given only as `triggerMetadata["activeDirectoryClientPassword"]`
leads to the error. -/
theorem password_error_iff_no_secret_witness :
    passwordInMetadataOnly.TriggerMetadata "activeDirectoryClientPassword"
      = some "CLIENT_PASSWORD" ∧
    parseAzurePodIdentityParams modelExternals passwordInMetadataOnly
      = .error "no activeDirectoryClientPassword given" :=
  ⟨rfl,
    (password_error_iff_no_secret modelExternals passwordInMetadataOnly "CLIENT_ID"
      (Or.inl rfl) rfl (by decide)).1.2 ⟨rfl, Or.inl rfl⟩⟩

/-- C12, as stated, fails: in row "connection from authParams" of the test table the pod
identity is empty and `triggerMetadata` has no `activeDirectoryClientId`, yet the credential
step succeeds with the client id of `authParams`. -/
theorem clientId_from_authParams_counterexample :
    connectionFromAuthParams.PodIdentity = "" ∧
    connectionFromAuthParams.TriggerMetadata "activeDirectoryClientId" = none ∧
    parseAzurePodIdentityParams modelExternals connectionFromAuthParams
      = .ok ("zzz", "password") :=
  ⟨rfl, rfl, rfl⟩

/-- C12, amended: in explicit authentication mode the client id is the result of
`getParameterFromConfig(config, "activeDirectoryClientId", true)`; whenever that lookup
fails or yields the empty string, `parseAzurePodIdentityParams` fails with
"no activeDirectoryClientId given" and returns no credentials. -/
theorem clientId_lookup_failure_is_error (ext : Externals) (c : ScalerConfig)
    (hmode : c.PodIdentity = "" ∨ c.PodIdentity = PodIdentityProviderNone)
    (hlookup : ∀ id, ext.getParameterFromConfig c "activeDirectoryClientId" true = .ok id →
      id = "") :
    parseAzurePodIdentityParams ext c = .error "no activeDirectoryClientId given" := by
  unfold parseAzurePodIdentityParams
  rw [if_pos hmode]
  rcases hg : ext.getParameterFromConfig c "activeDirectoryClientId" true with e | id
  · rfl
  · have := hlookup id hg
    simp only [this, if_true]

/-- Witness of the amended C12: row "missing activeDirectoryClientId" of the test table. -/
theorem clientId_lookup_failure_is_error_witness :
    (missingClientId.PodIdentity = "" ∨
      missingClientId.PodIdentity = PodIdentityProviderNone) ∧
    modelExternals.getParameterFromConfig missingClientId "activeDirectoryClientId" true
      = .error "key not found: activeDirectoryClientId" ∧
    parseAzurePodIdentityParams modelExternals missingClientId
      = .error "no activeDirectoryClientId given" :=
  ⟨Or.inl rfl, rfl,
    clientId_lookup_failure_is_error modelExternals missingClientId (Or.inl rfl)
      (fun id h => by
        have h' : (Except.error "key not found: activeDirectoryClientId"
            : Except String String) = .ok id := h
        cases h')⟩

/-- C13: for the two Azure ambient-identity providers `parseAzurePodIdentityParams` returns
an empty client id, an empty client password and no error, and the result stays the same
under every change of `triggerMetadata`, `authParams`, `resolvedEnv` and of the
collaborators. -/
theorem ambient_identity_reads_no_credentials (ext : Externals) (c : ScalerConfig)
    (h : c.PodIdentity = PodIdentityProviderAzure ∨
      c.PodIdentity = PodIdentityProviderAzureWorkload) :
    parseAzurePodIdentityParams ext c = .ok ("", "") ∧
    ∀ (ext' : Externals) (tm ap re : StringMap),
      parseAzurePodIdentityParams ext'
          { c with TriggerMetadata := tm, AuthParams := ap, ResolvedEnv := re }
        = parseAzurePodIdentityParams ext c := by
  have hnot : ¬ (c.PodIdentity = "" ∨ c.PodIdentity = PodIdentityProviderNone) := by
    rintro (h0 | h0) <;> rcases h with h1 | h1 <;>
      · rw [h0] at h1
        revert h1
        decide
  have key : ∀ (ext' : Externals) (c' : ScalerConfig), c'.PodIdentity = c.PodIdentity →
      parseAzurePodIdentityParams ext' c' = .ok ("", "") := by
    intro ext' c' hc'
    unfold parseAzurePodIdentityParams
    rw [hc', if_neg hnot, if_pos h]
  refine ⟨key ext c rfl, fun ext' tm ap re => ?_⟩
  rw [key ext c rfl]
  exact key ext' _ rfl

/-- Witness of C13: row "connection with podIdentity" of the test table. -/
theorem ambient_identity_reads_no_credentials_witness :
    (connectionWithPodIdentity.PodIdentity = PodIdentityProviderAzure ∨
      connectionWithPodIdentity.PodIdentity = PodIdentityProviderAzureWorkload) ∧
    parseAzurePodIdentityParams modelExternals connectionWithPodIdentity = .ok ("", "") :=
  ⟨Or.inl rfl,
    (ambient_identity_reads_no_credentials modelExternals connectionWithPodIdentity
      (Or.inl rfl)).1⟩

/-- C14: for a pod-identity selector other than `""`, `"none"` and the two Azure providers,
`parseAzurePodIdentityParams` returns the unsupported-mode error, whose message ends with
the selector, and `parseAzureMonitorMetadata` returns an error and no descriptor. -/
theorem unsupported_pod_identity_is_error (ext : Externals) (c : ScalerConfig)
    (h1 : c.PodIdentity ≠ "") (h2 : c.PodIdentity ≠ PodIdentityProviderNone)
    (h3 : c.PodIdentity ≠ PodIdentityProviderAzure)
    (h4 : c.PodIdentity ≠ PodIdentityProviderAzureWorkload) :
    parseAzurePodIdentityParams ext c
      = .error ("azure Monitor doesn't support pod identity " ++ c.PodIdentity) ∧
    ∃ e, parseAzureMonitorMetadata ext c = .error e := by
  have hp : parseAzurePodIdentityParams ext c
      = .error ("azure Monitor doesn't support pod identity " ++ c.PodIdentity) := by
    unfold parseAzurePodIdentityParams
    rw [if_neg (by rintro (h | h); exact h1 h; exact h2 h),
      if_neg (by rintro (h | h); exact h3 h; exact h4 h)]
  refine ⟨hp, parse_error_of_not_ok ext c fun m hm => ?_⟩
  obtain ⟨v, cred, rm, ad, _, hc, _⟩ := (parse_ok_iff ext c m).1 hm
  rw [hp] at hc
  cases hc

/-- Witness of C14: row "wrong podIdentity" of the test table. -/
theorem unsupported_pod_identity_is_error_witness :
    wrongPodIdentity.PodIdentity = "notAzure" ∧
    parseAzurePodIdentityParams modelExternals wrongPodIdentity
      = .error "azure Monitor doesn't support pod identity notAzure" ∧
    ∃ e, parseAzureMonitorMetadata modelExternals wrongPodIdentity = .error e :=
  have h := unsupported_pod_identity_is_error modelExternals wrongPodIdentity
    (by decide) (by decide) (by decide) (by decide)
  ⟨rfl, h.1, h.2⟩

/-! ## The endpoints of a private cloud -/

/-- The modelled endpoint resolver on a configuration whose `cloud` is "private": the
property must be given in the configuration and is returned verbatim. -/
theorem ParseEnvironmentProperty_private (metadata : StringMap) (propertyName : String)
    (provider : Environment → Except String String) (h : metadata "cloud" = some "private") :
    ParseEnvironmentProperty metadata propertyName provider =
      if metadata.index propertyName ≠ "" then .ok (metadata.index propertyName)
      else .error (propertyName ++ " must be provided for " ++ PrivateCloud ++ " cloud type") := by
  have hl : asciiLower "private" = asciiLower PrivateCloud := by decide
  have hb : ("private" != "") = true := by decide
  unfold ParseEnvironmentProperty
  simp only [StringMap.lookup, h, Option.getD_some, Option.isSome_some, hb, Bool.and_self,
    if_true, hl, StringMap.getD_eq_index, StringMap.present_iff]

/-- C15: for a configuration that passes all field and credential checks and whose `cloud`
is "private", `parseAzureMonitorMetadata` succeeds if and only if both
`azureResourceManagerEndpoint` and `activeDirectoryEndpoint` are present and non-empty, and
the descriptor then carries these two strings verbatim. The two endpoint resolvers are the
ones modelled from the spec. -/
theorem private_cloud_needs_both_endpoints (ext : Externals) (c : ScalerConfig) (v : Int)
    (cred : String × String)
    (hrm : ext.ParseEnvironmentProperty = ParseEnvironmentProperty)
    (had : ext.ParseActiveDirectoryEndpoint = ParseActiveDirectoryEndpoint)
    (hf : fieldChecks c v) (hc : parseAzurePodIdentityParams ext c = .ok cred)
    (hcloud : c.TriggerMetadata "cloud" = some "private") :
    ((∃ m, parseAzureMonitorMetadata ext c = .ok m) ↔
      c.TriggerMetadata.index "azureResourceManagerEndpoint" ≠ "" ∧
      c.TriggerMetadata.index "activeDirectoryEndpoint" ≠ "") ∧
    ∀ m, parseAzureMonitorMetadata ext c = .ok m →
      m.azureMonitorInfo.AzureResourceManagerEndpoint
        = c.TriggerMetadata.index "azureResourceManagerEndpoint" ∧
      m.azureMonitorInfo.ActiveDirectoryEndpoint
        = c.TriggerMetadata.index "activeDirectoryEndpoint" := by
  have key : ∀ m, parseAzureMonitorMetadata ext c = .ok m →
      (c.TriggerMetadata.index "azureResourceManagerEndpoint" ≠ "" ∧
        c.TriggerMetadata.index "activeDirectoryEndpoint" ≠ "") ∧
      m.azureMonitorInfo.AzureResourceManagerEndpoint
        = c.TriggerMetadata.index "azureResourceManagerEndpoint" ∧
      m.azureMonitorInfo.ActiveDirectoryEndpoint
        = c.TriggerMetadata.index "activeDirectoryEndpoint" := by
    intro m hm
    obtain ⟨v', cred', rm, ad, _, _, hrm', had', rfl⟩ := (parse_ok_iff ext c m).1 hm
    rw [hrm, ParseEnvironmentProperty_private _ _ _ hcloud] at hrm'
    rw [had] at had'
    unfold ParseActiveDirectoryEndpoint at had'
    rw [ParseEnvironmentProperty_private _ _ _ hcloud] at had'
    split_ifs at hrm' with h1
    split_ifs at had' with h2
    simp only [Except.ok.injEq] at hrm' had'
    exact ⟨⟨h1, h2⟩, hrm'.symm, had'.symm⟩
  refine ⟨⟨fun ⟨m, hm⟩ => (key m hm).1, fun ⟨h1, h2⟩ => ?_⟩, fun m hm => (key m hm).2⟩
  refine ⟨descriptorOf c v cred (c.TriggerMetadata.index "azureResourceManagerEndpoint")
    (c.TriggerMetadata.index "activeDirectoryEndpoint"),
    (parse_ok_iff ext c _).2 ⟨v, cred, _, _, hf, hc, ?_, ?_, rfl⟩⟩
  · rw [hrm, ParseEnvironmentProperty_private _ _ _ hcloud, if_pos h1]
  · rw [had]
    unfold ParseActiveDirectoryEndpoint
    rw [ParseEnvironmentProperty_private _ _ _ hcloud, if_pos h2]

/-- Witness of C15: row "private cloud" of the test table. -/
theorem private_cloud_needs_both_endpoints_witness :
    fieldChecks privateCloud 5 ∧
    parseAzurePodIdentityParams modelExternals privateCloud = .ok ("CLIENT_ID", "yyy") ∧
    privateCloud.TriggerMetadata "cloud" = some "private" ∧
    ∃ m, parseAzureMonitorMetadata modelExternals privateCloud = .ok m ∧
      m.azureMonitorInfo.AzureResourceManagerEndpoint = testAzureResourceManagerEndpoint ∧
      m.azureMonitorInfo.ActiveDirectoryEndpoint = testActiveDirectoryEndpoint :=
  have hf : fieldChecks privateCloud 5 :=
    ⟨by decide, by rfl, by decide, by decide, by decide, by decide, by decide,
      Or.inr (by decide), by decide, by decide⟩
  have h := private_cloud_needs_both_endpoints modelExternals privateCloud 5
    ("CLIENT_ID", "yyy") rfl rfl hf rfl rfl
  have hm := h.1.2 ⟨by decide, by decide⟩
  ⟨hf, rfl, rfl, hm.choose, hm.choose_spec, h.2 _ hm.choose_spec⟩

/-! ## The name of the metric spec -/

theorem asciiLower_append (a b : String) :
    asciiLower (a ++ b) = asciiLower a ++ asciiLower b := by
  apply String.ext
  simp [asciiLower, String.data_append]

theorem map_eq_self_of_fixed (f : Char → Char) (l : List Char) (h : ∀ c ∈ l, f c = c) :
    l.map f = l := by
  induction l with
  | nil => rfl
  | cons c cs ih =>
    rw [List.map_cons, h c (List.mem_cons_self _ _),
      ih fun c' hc' => h c' (List.mem_cons_of_mem _ hc')]

/-- Normalisation works character by character, so it leaves the prefix `azure-monitor-`
in place when the replacement table does not touch the characters of the prefix. -/
theorem NormalizeString_prefix (replace : Char → Char)
    (hfix : ∀ c ∈ "azure-monitor-".data, replace c = c) (s : String) :
    NormalizeString replace ("azure-monitor-" ++ s)
      = "azure-monitor-" ++ NormalizeString replace s := by
  have hlow : asciiLower "azure-monitor-" = "azure-monitor-" := by decide
  unfold NormalizeString
  rw [asciiLower_append, hlow]
  apply String.ext
  rw [String.data_append, String.data_append, List.map_append,
    map_eq_self_of_fixed replace _ hfix]

/-- The decimal representation determines the integer. -/
theorem toString_int_injective (i j : Int) (h : toString i = toString j) : i = j := by
  have hnat : ∀ m n : Nat, Nat.toDigits 10 m = Nat.toDigits 10 n → m = n := by
    intro m n hmn
    have h1 := decimalDigits_toDigits m
    rw [hmn, decimalDigits_toDigits n] at h1
    exact (Option.some.inj h1).symm
  have hmix : ∀ (m k : Nat), Nat.toDigits 10 m ≠ '-' :: Nat.toDigits 10 (k + 1) := by
    intro m k hmk
    have := toDigits_head m _ _ hmk
    revert this
    decide
  cases i with
  | ofNat m =>
    cases j with
    | ofNat n =>
      have hd : Nat.toDigits 10 m = Nat.toDigits 10 n := congrArg String.data h
      rw [hnat m n hd]
    | negSucc k =>
      have hd : Nat.toDigits 10 m = '-' :: Nat.toDigits 10 (k + 1) := congrArg String.data h
      exact absurd hd (hmix m k)
  | negSucc k =>
    cases j with
    | ofNat n =>
      have hd : '-' :: Nat.toDigits 10 (k + 1) = Nat.toDigits 10 n := congrArg String.data h
      exact absurd hd.symm (hmix n k)
    | negSucc l =>
      have hd : '-' :: Nat.toDigits 10 (k + 1) = '-' :: Nat.toDigits 10 (l + 1) :=
        congrArg String.data h
      have := hnat (k + 1) (l + 1) (List.cons.inj hd).2
      have hkl : k = l := by omega
      rw [hkl]

/-- The modelled name is injective in the scaler index. -/
theorem GenerateMetricNameWithIndex_injective (i j : Int) (name : String)
    (h : GenerateMetricNameWithIndex i name = GenerateMetricNameWithIndex j name) : i = j := by
  unfold GenerateMetricNameWithIndex at h
  have hd := congrArg String.data h
  simp only [String.data_append] at hd
  have h1 := List.append_cancel_right hd
  have h2 := List.append_cancel_right h1
  have h3 := List.append_cancel_left h2
  exact toString_int_injective i j (String.ext h3)

/-- Normalisation works character by character: a character is lower-cased, then looked up in
the replacement table. -/
theorem NormalizeString_data (replace : Char → Char) (s : String) :
    (NormalizeString replace s).data
      = s.data.map (fun c =>
          replace (if 65 ≤ c.toNat ∧ c.toNat ≤ 90 then Char.ofNat (c.toNat + 32) else c)) := by
  simp only [NormalizeString, asciiLower, List.map_map]
  rfl

/-- The lower-cased form of a character is not an upper-case letter. -/
theorem lowered_not_upper (c : Char) :
    ¬ isUpperLetter
      (if 65 ≤ c.toNat ∧ c.toNat ≤ 90 then Char.ofNat (c.toNat + 32) else c) := by
  by_cases h : 65 ≤ c.toNat ∧ c.toNat ≤ 90
  · rw [if_pos h]
    obtain ⟨h1, h2⟩ := h
    generalize c.toNat = n at h1 h2
    interval_cases n <;> decide
  · rw [if_neg h]
    exact h

/-- The table `dashForDisallowed` yields no disallowed character, and an upper-case letter
only when it is given one. -/
theorem dashForDisallowed_spec (c : Char) :
    ¬ isDisallowed (dashForDisallowed c) ∧
    (¬ isUpperLetter c → ¬ isUpperLetter (dashForDisallowed c)) := by
  unfold dashForDisallowed
  by_cases h : c = '/' ∨ c = '.' ∨ c = ':' ∨ c = '%'
  · rw [if_pos h]
    exact ⟨by decide, fun _ => by decide⟩
  · rw [if_neg h]
    exact ⟨h, fun hu => hu⟩

/-- The table `dashForDisallowed` keeps every character other than the disallowed ones. -/
theorem dashForDisallowed_keeps (c : Char) (h : ¬ isDisallowed c) :
    dashForDisallowed c = c := by
  unfold dashForDisallowed
  rw [if_neg h]

/-- C16: the single metric spec returned by `GetMetricSpecForScaling` is named
`"s" + decimal(scalerIndex) + "-azure-monitor-" + normalized(metricName)`. Normalisation
lower-cases the metric name and replaces disallowed characters: the normalised name has no
upper-case letter and no disallowed character, every disallowed character of the lower-cased
name has become a dash at its place, and a name without upper-case letters and disallowed
characters is kept as it is. The name of the spec is the same for two scalers with the same
scaler index and metric name, whatever their other fields are. The name functions are the
ones modelled from the spec, with slash, dot, colon and percent sign as the disallowed
characters. -/
theorem metric_spec_name (sx : ScalerExternals) (s : azureMonitorScaler)
    (hgen : sx.GenerateMetricNameWithIndex = GenerateMetricNameWithIndex)
    (hnorm : sx.NormalizeString = NormalizeString dashForDisallowed) :
    GetMetricSpecForScaling sx s =
      [{ External :=
          { Metric :=
              { Name := "s" ++ toString s.metadata.scalerIndex ++ "-azure-monitor-"
                  ++ NormalizeString dashForDisallowed s.metadata.azureMonitorInfo.Name }
            Target := sx.GetMetricTarget s.metricType s.metadata.targetValue }
         SourceType := sx.externalMetricType }] ∧
    (∀ ch ∈ (NormalizeString dashForDisallowed s.metadata.azureMonitorInfo.Name).data,
      ¬ isUpperLetter ch ∧ ¬ isDisallowed ch) ∧
    (NormalizeString dashForDisallowed s.metadata.azureMonitorInfo.Name).data
      = (asciiLower s.metadata.azureMonitorInfo.Name).data.map
          (fun ch => if isDisallowed ch then '-' else ch) ∧
    ((∀ ch ∈ s.metadata.azureMonitorInfo.Name.data, ¬ isUpperLetter ch ∧ ¬ isDisallowed ch) →
      NormalizeString dashForDisallowed s.metadata.azureMonitorInfo.Name
        = s.metadata.azureMonitorInfo.Name) ∧
    ∀ s' : azureMonitorScaler, s'.metadata.scalerIndex = s.metadata.scalerIndex →
      s'.metadata.azureMonitorInfo.Name = s.metadata.azureMonitorInfo.Name →
      (GetMetricSpecForScaling sx s').map (fun spec => spec.External.Metric.Name)
        = (GetMetricSpecForScaling sx s).map (fun spec => spec.External.Metric.Name) := by
  have hfix : ∀ c ∈ "azure-monitor-".data, dashForDisallowed c = c := by decide
  refine ⟨?_, ?_, rfl, ?_, ?_⟩
  · unfold GetMetricSpecForScaling
    simp only [hgen, hnorm, NormalizeString_prefix dashForDisallowed hfix,
      GenerateMetricNameWithIndex, String.append_assoc]
    rfl
  · intro ch hch
    rw [NormalizeString_data, List.mem_map] at hch
    obtain ⟨c, _, rfl⟩ := hch
    exact ⟨(dashForDisallowed_spec _).2 (lowered_not_upper c), (dashForDisallowed_spec _).1⟩
  · intro hall
    apply String.ext
    rw [NormalizeString_data]
    refine map_eq_self_of_fixed _ _ fun c hc => ?_
    rw [if_neg (hall c hc).1]
    exact dashForDisallowed_keeps c (hall c hc).2
  · intro s' hi hn
    unfold GetMetricSpecForScaling
    simp only [List.map_cons, List.map_nil, hi, hn]

/-- Witness of C16: the two rows of `azMonitorMetricIdentifiers`, metric `metric` at the
scaler indices 0 and 1, whose name normalisation keeps; and a metric name with upper-case
letters and the four disallowed characters, all of which normalisation changes. -/
theorem metric_spec_name_witness :
    (GetMetricSpecForScaling sampleScalerExternals (mockAzMonitorScaler 0)).map
        (fun spec => spec.External.Metric.Name) = ["s0-azure-monitor-metric"] ∧
    (GetMetricSpecForScaling sampleScalerExternals (mockAzMonitorScaler 1)).map
        (fun spec => spec.External.Metric.Name) = ["s1-azure-monitor-metric"] ∧
    NormalizeString dashForDisallowed "metric" = "metric" ∧
    mixedNameScaler.metadata.azureMonitorInfo.Name = "My.Metric/Name:50%" ∧
    (GetMetricSpecForScaling sampleScalerExternals mixedNameScaler).map
        (fun spec => spec.External.Metric.Name) = ["s0-azure-monitor-my-metric-name-50-"] ∧
    ∀ ch ∈ (NormalizeString dashForDisallowed "My.Metric/Name:50%").data,
      ¬ isUpperLetter ch ∧ ¬ isDisallowed ch :=
  ⟨by
    rw [(metric_spec_name sampleScalerExternals (mockAzMonitorScaler 0) rfl rfl).1]
    rfl,
   by
    rw [(metric_spec_name sampleScalerExternals (mockAzMonitorScaler 1) rfl rfl).1]
    rfl,
   (metric_spec_name sampleScalerExternals (mockAzMonitorScaler 0) rfl rfl).2.2.2.1
    (by decide),
   rfl,
   by
    rw [(metric_spec_name sampleScalerExternals mixedNameScaler rfl rfl).1]
    rfl,
   (metric_spec_name sampleScalerExternals mixedNameScaler rfl rfl).2.1⟩

/-- C17: two scalers with the same metric name and different scaler indices get different
metric-spec names from `GetMetricSpecForScaling`. The index prefix is the one modelled from
the spec. -/
theorem metric_spec_name_injective_in_index (sx : ScalerExternals)
    (s₁ s₂ : azureMonitorScaler)
    (hgen : sx.GenerateMetricNameWithIndex = GenerateMetricNameWithIndex)
    (hname : s₁.metadata.azureMonitorInfo.Name = s₂.metadata.azureMonitorInfo.Name)
    (hidx : s₁.metadata.scalerIndex ≠ s₂.metadata.scalerIndex) :
    (GetMetricSpecForScaling sx s₁).map (fun spec => spec.External.Metric.Name)
      ≠ (GetMetricSpecForScaling sx s₂).map (fun spec => spec.External.Metric.Name) := by
  intro h
  unfold GetMetricSpecForScaling at h
  simp only [List.map_cons, List.map_nil, List.cons.injEq, and_true, hgen, hname] at h
  exact hidx (GenerateMetricNameWithIndex_injective _ _ _ h)

/-- Witness of C17: the scalers of the two rows of `azMonitorMetricIdentifiers`. -/
theorem metric_spec_name_injective_in_index_witness :
    (mockAzMonitorScaler 0).metadata.azureMonitorInfo.Name
      = (mockAzMonitorScaler 1).metadata.azureMonitorInfo.Name ∧
    (mockAzMonitorScaler 0).metadata.scalerIndex ≠ (mockAzMonitorScaler 1).metadata.scalerIndex ∧
    (GetMetricSpecForScaling sampleScalerExternals (mockAzMonitorScaler 0)).map
        (fun spec => spec.External.Metric.Name)
      ≠ (GetMetricSpecForScaling sampleScalerExternals (mockAzMonitorScaler 1)).map
        (fun spec => spec.External.Metric.Name) :=
  ⟨rfl, by decide,
    metric_spec_name_injective_in_index sampleScalerExternals (mockAzMonitorScaler 0)
      (mockAzMonitorScaler 1) rfl rfl (by decide)⟩

/-! ## The operations of the scaler -/

/-- C18: `IsActive` returns `(true, nil)` when the fetched value is positive, `(false, nil)`
when it is zero or negative, and `(false, e)` with the fetch error `e` itself when the fetch
fails. -/
theorem IsActive_follows_fetch (sx : ScalerExternals) (s : azureMonitorScaler) :
    (∀ val, sx.GetAzureMetricValue s.metadata.azureMonitorInfo s.podIdentity = .ok val →
      val > 0 → IsActive sx s = (true, none)) ∧
    (∀ val, sx.GetAzureMetricValue s.metadata.azureMonitorInfo s.podIdentity = .ok val →
      val ≤ 0 → IsActive sx s = (false, none)) ∧
    (∀ e, sx.GetAzureMetricValue s.metadata.azureMonitorInfo s.podIdentity = .error e →
      IsActive sx s = (false, some e)) := by
  refine ⟨fun val h hpos => ?_, fun val h hle => ?_, fun e h => ?_⟩
  · unfold IsActive
    rw [h]
    simp only [hpos, decide_True]
  · have hnot : ¬ val > 0 := by omega
    unfold IsActive
    rw [h]
    simp only [hnot, decide_False]
  · unfold IsActive
    rw [h]

/-- Witness of C18: a fetch that reports 7, one that reports -3 and one that fails. -/
theorem IsActive_follows_fetch_witness :
    IsActive sampleScalerExternals (mockAzMonitorScaler 0) = (true, none) ∧
    IsActive { sampleScalerExternals with GetAzureMetricValue := fun _ _ => .ok (-3) }
      (mockAzMonitorScaler 0) = (false, none) ∧
    IsActive { sampleScalerExternals with GetAzureMetricValue := fun _ _ => .error "timeout" }
      (mockAzMonitorScaler 0) = (false, some "timeout") :=
  ⟨(IsActive_follows_fetch sampleScalerExternals (mockAzMonitorScaler 0)).1 7 rfl (by decide),
    (IsActive_follows_fetch _ (mockAzMonitorScaler 0)).2.1 (-3) rfl (by decide),
    (IsActive_follows_fetch _ (mockAzMonitorScaler 0)).2.2 "timeout" rfl⟩

/-- C19: on a successful fetch `GetMetrics` returns exactly one sample, named as the caller
asked and carrying the fetched integer, and no error; on a fetch error `e` it returns the
empty list and `e` itself. -/
theorem GetMetrics_wraps_fetch (sx : ScalerExternals) (s : azureMonitorScaler)
    (metricName : String) :
    (∀ val, sx.GetAzureMetricValue s.metadata.azureMonitorInfo s.podIdentity = .ok val →
      GetMetrics sx s metricName
        = ([{ MetricName := metricName, Value := val, Timestamp := sx.Now }], none)) ∧
    (∀ e, sx.GetAzureMetricValue s.metadata.azureMonitorInfo s.podIdentity = .error e →
      GetMetrics sx s metricName = ([], some e)) := by
  refine ⟨fun val h => ?_, fun e h => ?_⟩
  · unfold GetMetrics
    rw [h]
    rfl
  · unfold GetMetrics
    rw [h]

/-- Witness of C19: the caller asks for "requested", not for the generated name
"s0-azure-monitor-metric". -/
theorem GetMetrics_wraps_fetch_witness :
    (GetMetricSpecForScaling sampleScalerExternals (mockAzMonitorScaler 0)).map
        (fun spec => spec.External.Metric.Name) = ["s0-azure-monitor-metric"] ∧
    GetMetrics sampleScalerExternals (mockAzMonitorScaler 0) "requested"
      = ([{ MetricName := "requested", Value := 7, Timestamp := 0 }], none) ∧
    GetMetrics { sampleScalerExternals with GetAzureMetricValue := fun _ _ => .error "timeout" }
      (mockAzMonitorScaler 0) "requested" = ([], some "timeout") :=
  ⟨rfl,
    (GetMetrics_wraps_fetch sampleScalerExternals (mockAzMonitorScaler 0) "requested").1 7 rfl,
    (GetMetrics_wraps_fetch _ (mockAzMonitorScaler 0) "requested").2 "timeout" rfl⟩

/-- C20: `NewAzureMonitorScaler` returns an error and no scaler whenever the metric target
type cannot be resolved or `parseAzureMonitorMetadata` fails; when both succeed it returns
the scaler that holds the resolved metric type, the descriptor of
`parseAzureMonitorMetadata` and `config.PodIdentity`. -/
theorem NewAzureMonitorScaler_all_or_nothing (ext : Externals) (sx : ScalerExternals)
    (c : ScalerConfig) :
    (∀ e, sx.GetMetricTargetType c = .error e →
      NewAzureMonitorScaler ext sx c = .error ("error getting scaler metric type: " ++ e)) ∧
    (∀ e, parseAzureMonitorMetadata ext c = .error e →
      ∃ e', NewAzureMonitorScaler ext sx c = .error e') ∧
    (∀ metricType e, sx.GetMetricTargetType c = .ok metricType →
      parseAzureMonitorMetadata ext c = .error e →
      NewAzureMonitorScaler ext sx c
        = .error ("error parsing azure monitor metadata: " ++ e)) ∧
    (∀ metricType m, sx.GetMetricTargetType c = .ok metricType →
      parseAzureMonitorMetadata ext c = .ok m →
      NewAzureMonitorScaler ext sx c
        = .ok { metricType := metricType, metadata := m, podIdentity := c.PodIdentity }) := by
  refine ⟨fun e h => ?_, fun e h => ?_, fun mt e hmt h => ?_, fun mt m hmt h => ?_⟩
  · unfold NewAzureMonitorScaler
    rw [h]
  · unfold NewAzureMonitorScaler
    rcases hmt : sx.GetMetricTargetType c with e₀ | mt
    · exact ⟨_, rfl⟩
    · simp only [h]
      exact ⟨_, rfl⟩
  · unfold NewAzureMonitorScaler
    rw [hmt]
    simp only [h]
  · unfold NewAzureMonitorScaler
    rw [hmt]
    simp only [h]

/-- Witness of C20: row "properly formed" gives a scaler, row "nothing passed" gives none. -/
theorem NewAzureMonitorScaler_all_or_nothing_witness :
    NewAzureMonitorScaler modelExternals sampleScalerExternals properlyFormed
      = .ok { metricType := "AverageValue", metadata := properlyFormedMeta, podIdentity := "" } ∧
    NewAzureMonitorScaler modelExternals sampleScalerExternals nothingPassed
      = .error "error parsing azure monitor metadata: no targetValue given" :=
  ⟨(NewAzureMonitorScaler_all_or_nothing modelExternals sampleScalerExternals
      properlyFormed).2.2.2 "AverageValue" properlyFormedMeta rfl rfl,
    (NewAzureMonitorScaler_all_or_nothing modelExternals sampleScalerExternals
      nothingPassed).2.2.1 "AverageValue" "no targetValue given" rfl rfl⟩

/-! ## The order of the checks -/

/-- In a list of checks, the first one that fails is the one at an index before which every
check passes. -/
theorem findSome_of_first {α β : Type} (f : α → Option β) :
    ∀ (l : List α) (i : Nat) (a : α) (b : β), l[i]? = some a →
      (∀ j, j < i → ∀ p, l[j]? = some p → f p = none) → f a = some b →
      l.findSome? f = some b := by
  intro l
  induction l with
  | nil => intro i a b hi; simp at hi
  | cons x xs ih =>
    intro i a b hi hbefore hfail
    cases i with
    | zero =>
      simp only [List.getElem?_cons_zero, Option.some.injEq] at hi
      subst hi
      simp only [List.findSome?, hfail]
    | succ n =>
      have hx : f x = none := hbefore 0 (Nat.succ_pos n) x (by simp)
      simp only [List.findSome?, hx]
      refine ih n a b (by simpa using hi) (fun j hj p hp => ?_) hfail
      exact hbefore (j + 1) (Nat.succ_lt_succ hj) p (by simpa using hp)

/-- The parser fails with the error of the first failing check, and succeeds when no check
fails. -/
theorem firstFailure_eq (ext : Externals) (c : ScalerConfig) :
    firstFailure ext c =
      match parseAzureMonitorMetadata ext c with
      | .error e => some e
      | .ok _ => none := by
  have hrg : "no " ++ "resourceGroupName" ++ " given" = "no resourceGroupName given" := by
    decide
  have hmn : "no " ++ "metricName" ++ " given" = "no metricName given" := by decide
  have hat : "no " ++ "metricAggregationType" ++ " given" = "no metricAggregationType given" := by
    decide
  have hsub : "no " ++ "subscriptionId" ++ " given" = "no subscriptionId given" := by decide
  have hten : "no " ++ "tenantId" ++ " given" = "no tenantId given" := by decide
  rw [parseAzureMonitorMetadata_eq]
  simp only [firstFailure, orderedChecks, List.findSome?, checkTargetValue, checkResourceURI,
    checkRequired, checkAggregationInterval, checkCredentials, checkManagementEndpoint,
    checkIdentityEndpoint, hrg, hmn, hat, hsub, hten]
  by_cases h1 : c.TriggerMetadata.index "targetValue" = ""
  · simp only [h1, if_true]
  simp only [h1, if_false]
  cases ParseInt (c.TriggerMetadata.index "targetValue") with
  | error err => rfl
  | ok v =>
  simp only []
  by_cases h2 : c.TriggerMetadata.index "resourceURI" = ""
  · simp only [h2, if_true]
  simp only [h2, if_false]
  by_cases h3 : (Split (c.TriggerMetadata.index "resourceURI") '/').length ≠ 3
  · simp only [if_pos h3]
  simp only [if_neg h3]
  by_cases h4 : c.TriggerMetadata.index "resourceGroupName" = ""
  · simp only [h4, if_true]
  simp only [h4, if_false]
  by_cases h5 : c.TriggerMetadata.index "metricName" = ""
  · simp only [h5, if_true]
  simp only [h5, if_false]
  by_cases h6 : c.TriggerMetadata.index "metricAggregationType" = ""
  · simp only [h6, if_true]
  simp only [h6, if_false]
  by_cases h7 : c.TriggerMetadata.index "metricAggregationInterval" ≠ "" ∧
      (Split (c.TriggerMetadata.index "metricAggregationInterval") ':').length ≠ 3
  · simp only [if_pos h7]
  simp only [if_neg h7]
  by_cases h8 : c.TriggerMetadata.index "subscriptionId" = ""
  · simp only [h8, if_true]
  simp only [h8, if_false]
  by_cases h9 : c.TriggerMetadata.index "tenantId" = ""
  · simp only [h9, if_true]
  simp only [h9, if_false]
  cases parseAzurePodIdentityParams ext c <;>
  cases ext.ParseEnvironmentProperty c.TriggerMetadata "azureResourceManagerEndpoint"
          (fun env => .ok env.ResourceManagerEndpoint) <;>
  cases ext.ParseActiveDirectoryEndpoint c.TriggerMetadata <;>
  rfl

/-- A text that starts with a non-empty text `a` starts with the first character of `a`. -/
theorem head_append (a s : String) (h : a.data ≠ []) :
    (a ++ s).data.head? = a.data.head? := by
  rw [String.data_append]
  cases hd : a.data with
  | nil => exact absurd hd h
  | cons x xs => rfl

/-- A text whose first character is not `a` is not the error of an unsupported pod
identity. -/
theorem ne_unsupported_of_head (t s : String) (h : t.data.head? ≠ some 'a') :
    t ≠ "azure Monitor doesn't support pod identity " ++ s := by
  intro heq
  apply h
  rw [heq, head_append _ _ (by decide)]
  decide

/-- The error of an unsupported pod identity is no error of a field check. -/
theorem fieldChecks_of_unsupported (ext : Externals) (c : ScalerConfig) (s : String)
    (h : parseAzureMonitorMetadata ext c
      = .error ("azure Monitor doesn't support pod identity " ++ s)) :
    ∃ v, fieldChecks c v := by
  have hlit : ∀ t : String, t.data.head? ≠ some 'a' →
      (Except.error t : Except String azureMonitorMetadata)
        = .error ("azure Monitor doesn't support pod identity " ++ s) → False :=
    fun t ht heq => ne_unsupported_of_head t s ht (Except.error.inj heq)
  rw [parseAzureMonitorMetadata_eq] at h
  split at h
  · exact (hlit _ (by decide) h).elim
  rename_i h1
  split at h
  · refine (hlit _ ?_ h).elim
    rw [String.append_assoc, String.append_assoc, head_append _ _ (by decide)]
    decide
  rename_i v hv
  split at h
  · exact (hlit _ (by decide) h).elim
  rename_i h2
  split at h
  · exact (hlit _ (by decide) h).elim
  rename_i h3
  split at h
  · exact (hlit _ (by decide) h).elim
  rename_i h4
  split at h
  · exact (hlit _ (by decide) h).elim
  rename_i h5
  split at h
  · exact (hlit _ (by decide) h).elim
  rename_i h6
  split at h
  · exact (hlit _ (by decide) h).elim
  rename_i h7
  split at h
  · exact (hlit _ (by decide) h).elim
  rename_i h8
  split at h
  · exact (hlit _ (by decide) h).elim
  rename_i h9
  refine ⟨v, h1, hv, h2, not_not.1 h3, h4, h5, h6, ?_, h8, h9⟩
  by_cases hi : c.TriggerMetadata.index "metricAggregationInterval" = ""
  · exact Or.inl hi
  · right
    by_contra hlen
    exact h7 ⟨hi, hlen⟩

/-- C21: `parseAzureMonitorMetadata` reports the first failing check in the order
targetValue, resourceURI, resourceGroupName, metricName, metricAggregationType,
metricAggregationInterval, subscriptionId, tenantId, credentials, management endpoint,
identity endpoint (`orderedChecks`): if check `i` fails with the error `e` and every check
before it passes, the parser returns the error `e`, whatever the later checks would give. In
particular the error of an unsupported pod identity is returned only by a configuration that
passes all field checks. -/
theorem first_failing_check_is_reported (ext : Externals) (c : ScalerConfig) :
    (∀ (i : Nat) (chk : Externals → ScalerConfig → Option String) (e : String),
      orderedChecks[i]? = some chk →
      (∀ j, j < i → ∀ p, orderedChecks[j]? = some p → p ext c = none) →
      chk ext c = some e →
      parseAzureMonitorMetadata ext c = .error e) ∧
    (parseAzureMonitorMetadata ext c
        = .error ("azure Monitor doesn't support pod identity " ++ c.PodIdentity) →
      ∃ v, fieldChecks c v) := by
  refine ⟨fun i chk e hi hbefore hfail => ?_, fieldChecks_of_unsupported ext c c.PodIdentity⟩
  have hfirst : firstFailure ext c = some e :=
    findSome_of_first (fun p : Externals → ScalerConfig → Option String => p ext c)
      orderedChecks i chk e hi hbefore hfail
  rw [firstFailure_eq] at hfirst
  cases hr : parseAzureMonitorMetadata ext c with
  | error e' =>
    rw [hr] at hfirst
    exact congrArg Except.error (Option.some.inj hfirst)
  | ok m =>
    rw [hr] at hfirst
    cases hfirst

/-- Witness of C21: the empty configuration fails at the first check; row "wrong podIdentity"
passes the eight field checks and fails at the credentials; without `tenantId` the same row
fails at the check of `tenantId`, and the pod identity is not reported. -/
theorem first_failing_check_is_reported_witness :
    parseAzureMonitorMetadata modelExternals nothingPassed = .error "no targetValue given" ∧
    parseAzureMonitorMetadata modelExternals wrongPodIdentity
      = .error "azure Monitor doesn't support pod identity notAzure" ∧
    parseAzureMonitorMetadata modelExternals wrongPodIdentityNoTenantId
      = .error "no tenantId given" ∧
    ∃ v, fieldChecks wrongPodIdentity v :=
  ⟨(first_failing_check_is_reported modelExternals nothingPassed).1 0 checkTargetValue
      "no targetValue given" rfl (fun j hj => absurd hj (Nat.not_lt_zero j)) rfl,
    (first_failing_check_is_reported modelExternals wrongPodIdentity).1 8 checkCredentials
      "azure Monitor doesn't support pod identity notAzure" rfl
      (fun j hj p hp => by
        interval_cases j <;>
        simp only [orderedChecks, List.getElem?_cons_succ, List.getElem?_cons_zero,
          Option.some.injEq] at hp <;>
        subst hp <;> rfl) rfl,
    (first_failing_check_is_reported modelExternals wrongPodIdentityNoTenantId).1 7
      (fun _ => checkRequired "tenantId") "no tenantId given" rfl
      (fun j hj p hp => by
        interval_cases j <;>
        simp only [orderedChecks, List.getElem?_cons_succ, List.getElem?_cons_zero,
          Option.some.injEq] at hp <;>
        subst hp <;> rfl) rfl,
    (first_failing_check_is_reported modelExternals wrongPodIdentity).2
      ((first_failing_check_is_reported modelExternals wrongPodIdentity).1 8 checkCredentials
        "azure Monitor doesn't support pod identity notAzure" rfl
        (fun j hj p hp => by
          interval_cases j <;>
          simp only [orderedChecks, List.getElem?_cons_succ, List.getElem?_cons_zero,
            Option.some.injEq] at hp <;>
          subst hp <;> rfl) rfl)⟩

/-! ## Errors of the credentials and of the endpoints -/

/-- After the field checks the result of the parser is decided by the credentials and the two
endpoints, asked in this order. -/
theorem parse_of_fieldChecks (ext : Externals) (c : ScalerConfig) (v : Int)
    (hf : fieldChecks c v) :
    parseAzureMonitorMetadata ext c =
      match parseAzurePodIdentityParams ext c with
      | .error e => .error e
      | .ok cred =>
        match ext.ParseEnvironmentProperty c.TriggerMetadata "azureResourceManagerEndpoint"
            (fun env => .ok env.ResourceManagerEndpoint) with
        | .error e => .error e
        | .ok rm =>
          match ext.ParseActiveDirectoryEndpoint c.TriggerMetadata with
          | .error e => .error e
          | .ok ad => .ok (descriptorOf c v cred rm ad) := by
  obtain ⟨h1, hv, h2, h3, h4, h5, h6, h7, h8, h9⟩ := hf
  have h7' : ¬ (c.TriggerMetadata.index "metricAggregationInterval" ≠ "" ∧
      (Split (c.TriggerMetadata.index "metricAggregationInterval") ':').length ≠ 3) := by
    rintro ⟨ha, hb⟩
    rcases h7 with h | h
    · exact ha h
    · exact hb h
  rw [parseAzureMonitorMetadata_eq]
  simp only [if_neg h1, hv, if_neg h2, h3, ne_eq, not_true_eq_false, if_false, if_neg h4,
    if_neg h5, if_neg h6, if_neg h7', if_neg h8, if_neg h9, descriptorOf]

/-- C22, as stated, fails on row "private cloud" without its two endpoints: the field checks
pass, the credentials are found, and the resolver of the identity endpoint returns the error
that names `activeDirectoryEndpoint`; the parser returns another error, the one of the
management endpoint, which it asks first. -/
theorem identity_endpoint_error_counterexample :
    fieldChecks privateCloudNoEndpoints 5 ∧
    parseAzurePodIdentityParams modelExternals privateCloudNoEndpoints
      = .ok ("CLIENT_ID", "yyy") ∧
    modelExternals.ParseActiveDirectoryEndpoint privateCloudNoEndpoints.TriggerMetadata
      = .error "activeDirectoryEndpoint must be provided for Private cloud type" ∧
    parseAzureMonitorMetadata modelExternals privateCloudNoEndpoints
      = .error "azureResourceManagerEndpoint must be provided for Private cloud type" ∧
    parseAzureMonitorMetadata modelExternals privateCloudNoEndpoints
      ≠ .error "activeDirectoryEndpoint must be provided for Private cloud type" :=
  have hp : parseAzureMonitorMetadata modelExternals privateCloudNoEndpoints
      = .error "azureResourceManagerEndpoint must be provided for Private cloud type" := rfl
  ⟨⟨by decide, by rfl, by decide, by decide, by decide, by decide, by decide,
      Or.inr (by decide), by decide, by decide⟩,
    rfl, rfl, hp,
    fun h => by
      rw [hp] at h
      exact absurd (Except.error.inj h) (by decide)⟩

/-- C22, amended: for a configuration that passes all field checks, whatever the credential
step and the two endpoint resolvers are: an error `e` of `parseAzurePodIdentityParams` is the
error of `parseAzureMonitorMetadata`; when the credential step succeeds, an error `e` of the
management-endpoint resolver is the error of the parser; when the credential step and the
management-endpoint resolver succeed, an error `e` of the identity-endpoint resolver is the
error of the parser. In each case the parser returns `e` itself and no descriptor. -/
theorem collaborator_error_is_returned_unchanged (ext : Externals) (c : ScalerConfig)
    (v : Int) (e : String) (hf : fieldChecks c v) :
    (parseAzurePodIdentityParams ext c = .error e →
      parseAzureMonitorMetadata ext c = .error e) ∧
    (∀ cred, parseAzurePodIdentityParams ext c = .ok cred →
      ext.ParseEnvironmentProperty c.TriggerMetadata "azureResourceManagerEndpoint"
        (fun env => .ok env.ResourceManagerEndpoint) = .error e →
      parseAzureMonitorMetadata ext c = .error e) ∧
    (∀ cred rm, parseAzurePodIdentityParams ext c = .ok cred →
      ext.ParseEnvironmentProperty c.TriggerMetadata "azureResourceManagerEndpoint"
        (fun env => .ok env.ResourceManagerEndpoint) = .ok rm →
      ext.ParseActiveDirectoryEndpoint c.TriggerMetadata = .error e →
      parseAzureMonitorMetadata ext c = .error e) := by
  refine ⟨fun hc => ?_, fun cred hc hrm => ?_, fun cred rm hc hrm had => ?_⟩
  · rw [parse_of_fieldChecks ext c v hf, hc]
  · rw [parse_of_fieldChecks ext c v hf, hc]
    simp only [hrm]
  · rw [parse_of_fieldChecks ext c v hf, hc]
    simp only [hrm, had]

/-- Witness of C22, amended: row "wrong podIdentity" for the credentials, row "private cloud"
without its two endpoints for the management endpoint, and row "private cloud" without
`activeDirectoryEndpoint` for the identity endpoint. -/
theorem collaborator_error_is_returned_unchanged_witness :
    parseAzureMonitorMetadata modelExternals wrongPodIdentity
      = .error "azure Monitor doesn't support pod identity notAzure" ∧
    parseAzureMonitorMetadata modelExternals privateCloudNoEndpoints
      = .error "azureResourceManagerEndpoint must be provided for Private cloud type" ∧
    parseAzureMonitorMetadata modelExternals privateCloudNoIdentityEndpoint
      = .error "activeDirectoryEndpoint must be provided for Private cloud type" :=
  ⟨(collaborator_error_is_returned_unchanged modelExternals wrongPodIdentity 5
      "azure Monitor doesn't support pod identity notAzure"
      ⟨by decide, by rfl, by decide, by decide, by decide, by decide, by decide,
        Or.inr (by decide), by decide, by decide⟩).1 rfl,
    (collaborator_error_is_returned_unchanged modelExternals privateCloudNoEndpoints 5
      "azureResourceManagerEndpoint must be provided for Private cloud type"
      ⟨by decide, by rfl, by decide, by decide, by decide, by decide, by decide,
        Or.inr (by decide), by decide, by decide⟩).2.1 ("CLIENT_ID", "yyy") rfl rfl,
    (collaborator_error_is_returned_unchanged modelExternals privateCloudNoIdentityEndpoint 5
      "activeDirectoryEndpoint must be provided for Private cloud type"
      ⟨by decide, by rfl, by decide, by decide, by decide, by decide, by decide,
        Or.inr (by decide), by decide, by decide⟩).2.2 ("CLIENT_ID", "yyy")
      "testAzureResourceManagerEndpoint" rfl rfl rfl⟩

end AzureMonitor
